import Mathlib

/-!
# Kinesis Video GStreamer sample application

A shallow embedding of `kinesis_video_gstreamer_sample_app.cpp`:

* the buffer-to-frame bridge (`create_kinesis_video_frame`, `put_frame`, `on_new_sample`),
* the capability negotiation (`format_supported_by_source`, `resolution_supported`),
* the set-up routine `gstreamer_init`.

Calls into the producer SDK and into GStreamer are recorded as events; what those
libraries answer is an input of the model.
-/

namespace KvsGstDemo

/-! ## Buffer-to-frame bridge: data model -/

/-- Two macros of the producer SDK headers that the sample application uses but does not
define: `DEFAULT_TIME_UNIT_IN_NANOS` and `HUNDREDS_OF_NANOS_IN_A_MILLISECOND`.
They are parameters of the model. -/
structure SdkConstants where
  DEFAULT_TIME_UNIT_IN_NANOS : Nat
  HUNDREDS_OF_NANOS_IN_A_MILLISECOND : Nat
  deriving DecidableEq, Repr

/-- The value `GST_CLOCK_TIME_NONE`, that is `(GstClockTime) -1`. -/
def GST_CLOCK_TIME_NONE : Nat := 2 ^ 64 - 1

/-- A `GstBuffer` as far as `on_new_sample` reads it: the two 64-bit time stamps, the four
buffer flags that are tested, and the payload bytes. -/
structure GstBuffer where
  pts : Nat
  dts : Nat
  GST_BUFFER_FLAG_CORRUPTED : Bool
  GST_BUFFER_FLAG_DECODE_ONLY : Bool
  GST_BUFFER_FLAG_HEADER : Bool
  GST_BUFFER_FLAG_DELTA_UNIT : Bool
  payload : List Nat
  pts_lt : pts < 2 ^ 64 := by decide
  dts_lt : dts < 2 ^ 64 := by decide
  deriving DecidableEq, Repr

/-- The macro `GST_BUFFER_PTS_IS_VALID`. -/
def GST_BUFFER_PTS_IS_VALID (buffer : GstBuffer) : Bool :=
  buffer.pts != GST_CLOCK_TIME_NONE

/-- The macro `GST_BUFFER_DTS_IS_VALID`. -/
def GST_BUFFER_DTS_IS_VALID (buffer : GstBuffer) : Bool :=
  buffer.dts != GST_CLOCK_TIME_NONE

/-- A `GstSample` as pulled from the appsink: the serialised `codec_data` value of the first
structure of its caps (the result of `gst_value_serialize`), and its buffer. Samples
whose caps have no `codec_data` field are not represented: for them the callback builds
a `std::string` from a null pointer. -/
structure GstSample where
  codec_data : String
  buffer : GstBuffer
  deriving DecidableEq, Repr

/-- The two values of `FRAME_FLAGS` that the application uses. -/
inductive FRAME_FLAGS where
  | FRAME_FLAG_NONE
  | FRAME_FLAG_KEY_FRAME
  deriving DecidableEq, Repr

/-- The fields of the SDK `Frame` that `create_kinesis_video_frame` fills in. -/
structure Frame where
  flags : FRAME_FLAGS
  decodingTs : Nat
  presentationTs : Nat
  duration : Nat
  size : Nat
  frameData : List Nat
  deriving DecidableEq, Repr

/-- The return type of the appsink callback; `on_new_sample` only ever produces
`GST_FLOW_OK`, the other value stands for the non-success results. -/
inductive GstFlowReturn where
  | GST_FLOW_OK
  | GST_FLOW_ERROR
  deriving DecidableEq, Repr

/-- A call made on the `KinesisVideoStream` sink, with what the sink answered. -/
inductive SinkCall where
  | start (codecPrivateData : String)
  | putFrame (frame : Frame) (accepted : Bool)
  deriving DecidableEq, Repr

/-- The conversion of a 64-bit unsigned value to the signed 64-bit representation of
`std::chrono::nanoseconds`. -/
def nanoseconds (t : Nat) : Int :=
  if t % 2 ^ 64 < 2 ^ 63 then ((t % 2 ^ 64 : Nat) : Int) else ((t % 2 ^ 64 : Nat) : Int) - 2 ^ 64

/-- The conversion `static_cast<UINT64>` of a signed 64-bit count. -/
def static_cast_UINT64 (c : Int) : Nat :=
  (c % 2 ^ 64).toNat

/-- The conversion `static_cast<UINT32>` of a `size_t`. -/
def static_cast_UINT32 (len : Nat) : Nat :=
  len % 2 ^ 32

/-- The function `create_kinesis_video_frame`: fills a frame from the time stamps (signed
nanosecond counts), the flags and the data. -/
def create_kinesis_video_frame (K : SdkConstants) (pts dts : Int) (flags : FRAME_FLAGS)
    (data : List Nat) (len : Nat) : Frame :=
  { flags := flags
    decodingTs := static_cast_UINT64 dts / K.DEFAULT_TIME_UNIT_IN_NANOS
    presentationTs := static_cast_UINT64 pts / K.DEFAULT_TIME_UNIT_IN_NANOS
    duration := (10 * K.HUNDREDS_OF_NANOS_IN_A_MILLISECOND) % 2 ^ 64
    size := static_cast_UINT32 len
    frameData := data }

/-- The function `put_frame`: builds the frame and hands it to the sink. The answer of
`KinesisVideoStream::putFrame` is the input `sinkAnswer`; the result is that answer
together with the recorded call. -/
def put_frame (K : SdkConstants) (sinkAnswer : Bool) (data : List Nat) (len : Nat)
    (pts dts : Int) (flags : FRAME_FLAGS) : Bool × SinkCall :=
  let frame := create_kinesis_video_frame K pts dts flags data len
  (sinkAnswer, SinkCall.putFrame frame sinkAnswer)

/-- The text written by `g_printerr`, `LOG_ERROR` and `LOG_INFO`, one constructor per
message of the source. -/
inductive LogMsg where
  /-- Prints `"Usage: ..."` -/
  | usage
  /-- Prints `"Invalid width value.\n"` -/
  | invalid_width
  /-- Prints `"Invalid height value.\n"` -/
  | invalid_height
  /-- Prints `"Invalid framerate value.\n"` -/
  | invalid_framerate
  /-- Prints `"Invalid bitrate value.\n"` -/
  | invalid_bitrate
  /-- Prints `"Invalid arguments\n"` -/
  | invalid_arguments
  /-- Prints `"Invalid resolution\n"` -/
  | invalid_resolution
  /-- Prints `"vtenc_h264_hw encoder \n"` -/
  | vtenc_encoder
  /-- Prints `"we think we are on a rpi - isOnRpi = true;\n"` -/
  | on_rpi
  /-- Prints `"x264enc encoder\n"` -/
  | x264enc_encoder
  /-- Prints `"v4l2src source\n"` -/
  | v4l2src_source
  /-- Prints `"Not all elements could be created.\n "` -/
  | not_all_elements
  /-- Prints `"Pipeline could not be created.\n "` -/
  | pipeline_not_created
  /-- Prints `"source could not be created.\n "` -/
  | source_not_created
  /-- Prints `"source_filter could not be created.\n "` -/
  | source_filter_not_created
  /-- Prints `"encoder could not be created.\n "` -/
  | encoder_not_created
  /-- Prints `"filter could not be created.\n "` -/
  | filter_not_created
  /-- Prints `"appsink could not be created.\n "` -/
  | appsink_not_created
  /-- Prints `"h264parse could not be created.\n "` -/
  | h264parse_not_created
  /-- Prints `"Unable to set the source to ready state.\n"` -/
  | source_not_ready
  /-- Prints `"Resolution %dx%d not supported by video source\n"` -/
  | resolution_not_supported (width height : Int)
  /-- Prints `"Found matching resolution: ..."` -/
  | found_matching_resolution (width height : Int)
  /-- Prints `"Default list of resolutions (1920x1080, 1280x720, 640x480) are not supported by
  video source\n"` -/
  | default_resolutions_not_supported
  /-- Prints `"Not all elements could be created.\n"` (for `videoconvert`) -/
  | video_convert_not_created
  /-- Prints `"Elements could not be linked.\n"` -/
  | elements_not_linked
  /-- Prints `"Unable to set the pipeline to the playing state.\n"` -/
  | pipeline_not_playing
  /-- Prints `"Dropped frame!\n"` -/
  | dropped_frame
  deriving DecidableEq, Repr

/-- The element factories that the application instantiates; `pipeline` stands for
`gst_pipeline_new`. -/
inductive ElementFactory where
  | capsfilter
  | appsink
  | h264parse
  | vtenc_h264_hw
  | omxh264enc
  | x264enc
  | autovideosrc
  | v4l2src
  | videoconvert
  | pipeline
  deriving DecidableEq, Repr

/-- The instance names given to the elements. -/
inductive ElementName where
  | source_filter
  | encoder_filter
  | appsink
  | h264parse
  | encoder
  | source
  | video_convert
  | test_pipeline
  deriving DecidableEq, Repr

/-- A created element: the factory it came from and its instance name. -/
structure GstElement where
  factory : ElementFactory
  name : ElementName
  deriving DecidableEq, Repr

/-- The struct `CustomData`. A null element pointer is `none`. The bus, the main loop and
the two SDK handles carry no information here: the calls made on the stream are
recorded as `SinkCall`s. -/
structure CustomData where
  pipeline : Option GstElement
  source : Option GstElement
  source_filter : Option GstElement
  encoder : Option GstElement
  filter : Option GstElement
  appsink : Option GstElement
  video_convert : Option GstElement
  h264parse : Option GstElement
  stream_started : Bool
  h264_stream_supported : Bool
  deriving DecidableEq, Repr

/-- The value of `CustomData` after `memset(&data, 0, sizeof(data))`. -/
def CustomData.zeroed : CustomData :=
  { pipeline := none, source := none, source_filter := none, encoder := none, filter := none,
    appsink := none, video_convert := none, h264parse := none,
    stream_started := false, h264_stream_supported := false }

/-! ## Buffer-to-frame bridge: the callback -/

/-- What one run of `on_new_sample` does: its return value, the struct it leaves behind,
the calls it made on the sink, in order, and what it printed. -/
structure CallbackResult where
  ret : GstFlowReturn
  data : CustomData
  calls : List SinkCall
  log : List LogMsg
  deriving DecidableEq, Repr

/-- The callback `on_new_sample`. `sample` is what `gst_app_sink_pull_sample` returns and
`sinkAnswer` is what `putFrame` answers should it be called. -/
def on_new_sample (K : SdkConstants) (sample : GstSample) (sinkAnswer : Bool)
    (data : CustomData) : CallbackResult :=
  let starting := !data.stream_started
  let data1 : CustomData := if starting then { data with stream_started := true } else data
  let calls1 : List SinkCall := if starting then [SinkCall.start sample.codec_data] else []
  let buffer := sample.buffer
  let isDroppable := buffer.GST_BUFFER_FLAG_CORRUPTED || buffer.GST_BUFFER_FLAG_DECODE_ONLY
  if !isDroppable then
    let isHeader := buffer.GST_BUFFER_FLAG_HEADER
    if !(isHeader && (!GST_BUFFER_PTS_IS_VALID buffer || !GST_BUFFER_DTS_IS_VALID buffer)) then
      let buffer_size := buffer.payload.length
      let frame_data := buffer.payload
      let delta := buffer.GST_BUFFER_FLAG_DELTA_UNIT
      let buffer1 : GstBuffer :=
        if !delta then
          if data1.h264_stream_supported then
            { buffer with pts := buffer.dts, pts_lt := buffer.dts_lt }
          else buffer
        else buffer
      let kinesis_video_flags :=
        if !delta then FRAME_FLAGS.FRAME_FLAG_KEY_FRAME else FRAME_FLAGS.FRAME_FLAG_NONE
      let put := put_frame K sinkAnswer frame_data buffer_size (nanoseconds buffer1.pts)
        (nanoseconds buffer1.dts) kinesis_video_flags
      { ret := GstFlowReturn.GST_FLOW_OK
        data := data1
        calls := calls1 ++ [put.2]
        log := if put.1 == false then [LogMsg.dropped_frame] else [] }
    else
      { ret := GstFlowReturn.GST_FLOW_OK, data := data1, calls := calls1, log := [] }
  else
    { ret := GstFlowReturn.GST_FLOW_OK, data := data1, calls := calls1, log := [] }

/-- One delivery of the running pipeline: the sample handed to the callback and the
answer the sink gives if `putFrame` is called during it. -/
structure Delivery where
  sample : GstSample
  sinkAnswer : Bool
  deriving DecidableEq, Repr

/-- What a sequence of deliveries leaves behind. -/
structure RunResult where
  data : CustomData
  calls : List SinkCall
  log : List LogMsg
  deriving DecidableEq, Repr

/-- The appsink emits `new-sample` once per buffer, one at a time: the callback runs on
each delivery in order, on the struct left by the previous one. -/
def deliver_all (K : SdkConstants) (data : CustomData) : List Delivery → RunResult
  | [] => { data := data, calls := [], log := [] }
  | d :: ds =>
    let r := on_new_sample K d.sample d.sinkAnswer data
    let rest := deliver_all K r.data ds
    { data := rest.data, calls := r.calls ++ rest.calls, log := r.log ++ rest.log }

/-! ## Bridge: the wording of the specification -/

/-- A buffer is dropped when it is flagged corrupted or decode-only, or when it is a header
buffer that lacks a valid presentation or decoding time stamp; otherwise it is
forwarded. -/
def forwarded (b : GstBuffer) : Bool :=
  !b.GST_BUFFER_FLAG_CORRUPTED && !b.GST_BUFFER_FLAG_DECODE_ONLY &&
    !(b.GST_BUFFER_FLAG_HEADER && (b.pts == GST_CLOCK_TIME_NONE || b.dts == GST_CLOCK_TIME_NONE))

/-- The presentation time stamp after the key-frame safeguard: the decoding time stamp for
a key frame in direct H.264 mode, the buffer's own otherwise. -/
def safeguardedPts (h264 : Bool) (b : GstBuffer) : Nat :=
  if !b.GST_BUFFER_FLAG_DELTA_UNIT && h264 then b.dts else b.pts

/-- The reference construction of the frame of a forwarded buffer: time stamps divided by
the sink time unit, the fixed duration, the key-frame flag for a buffer that is not a
delta unit. -/
def referenceFrame (K : SdkConstants) (h264 : Bool) (b : GstBuffer) : Frame :=
  { flags := if b.GST_BUFFER_FLAG_DELTA_UNIT then FRAME_FLAGS.FRAME_FLAG_NONE
             else FRAME_FLAGS.FRAME_FLAG_KEY_FRAME
    decodingTs := b.dts / K.DEFAULT_TIME_UNIT_IN_NANOS
    presentationTs := safeguardedPts h264 b / K.DEFAULT_TIME_UNIT_IN_NANOS
    duration := 10 * K.HUNDREDS_OF_NANOS_IN_A_MILLISECOND
    size := b.payload.length % 2 ^ 32
    frameData := b.payload }

/-- The frame that `on_new_sample` builds for a forwarded buffer, written out. -/
def builtFrame (K : SdkConstants) (h264 : Bool) (b : GstBuffer) : Frame :=
  { flags := if b.GST_BUFFER_FLAG_DELTA_UNIT then FRAME_FLAGS.FRAME_FLAG_NONE
             else FRAME_FLAGS.FRAME_FLAG_KEY_FRAME
    decodingTs := b.dts / K.DEFAULT_TIME_UNIT_IN_NANOS
    presentationTs := safeguardedPts h264 b / K.DEFAULT_TIME_UNIT_IN_NANOS
    duration := (10 * K.HUNDREDS_OF_NANOS_IN_A_MILLISECOND) % 2 ^ 64
    size := b.payload.length % 2 ^ 32
    frameData := b.payload }

/-- The `putFrame` calls of a run in which the mode flag is `h264`: one per forwarded
buffer, in delivery order, each with the sink's answer for that delivery. -/
def putFrameCalls (K : SdkConstants) (h264 : Bool) (ds : List Delivery) : List SinkCall :=
  (ds.filter (fun d => forwarded d.sample.buffer)).map
    (fun d => SinkCall.putFrame (builtFrame K h264 d.sample.buffer) d.sinkAnswer)

/-- The `start` call of a run: made with the codec data of the first delivered sample, if
there is one and the stream has not been started before. -/
def startCalls (started : Bool) : List Delivery → List SinkCall
  | [] => []
  | d :: _ => if started then [] else [SinkCall.start d.sample.codec_data]

/-! ## Bridge: concrete inputs used in examples -/

/-- A choice of the two SDK constants for examples: a sink time unit of 100 ns, and 10000
such units in a millisecond. -/
def exampleConstants : SdkConstants :=
  { DEFAULT_TIME_UNIT_IN_NANOS := 100, HUNDREDS_OF_NANOS_IN_A_MILLISECOND := 10000 }

/-- A header buffer whose presentation time stamp is `GST_CLOCK_TIME_NONE`; its decoding
time stamp is valid and it is neither corrupted nor decode-only. -/
def headerWithoutPts : GstSample :=
  { codec_data := "codec-data-0"
    buffer := { pts := 2 ^ 64 - 1, dts := 0, GST_BUFFER_FLAG_CORRUPTED := false,
                GST_BUFFER_FLAG_DECODE_ONLY := false, GST_BUFFER_FLAG_HEADER := true,
                GST_BUFFER_FLAG_DELTA_UNIT := false, payload := [0, 0, 0, 1, 103] } }

/-- A delta-unit buffer with presentation time 1000 ns and decoding time 100 ns. -/
def deltaSample : GstSample :=
  { codec_data := "codec-data-1"
    buffer := { pts := 1000, dts := 100, GST_BUFFER_FLAG_CORRUPTED := false,
                GST_BUFFER_FLAG_DECODE_ONLY := false, GST_BUFFER_FLAG_HEADER := false,
                GST_BUFFER_FLAG_DELTA_UNIT := true, payload := [0, 0, 0, 1, 65] } }

/-- A key-frame buffer (no delta-unit flag) with presentation time 2000 ns and decoding
time 250 ns. -/
def keyFrameSample : GstSample :=
  { codec_data := "codec-data-2"
    buffer := { pts := 2000, dts := 250, GST_BUFFER_FLAG_CORRUPTED := false,
                GST_BUFFER_FLAG_DECODE_ONLY := false, GST_BUFFER_FLAG_HEADER := false,
                GST_BUFFER_FLAG_DELTA_UNIT := false, payload := [0, 0, 0, 1, 101] } }

/-- The zeroed struct with the mode flag set as the negotiation leaves it. -/
def sessionInMode (h264 : Bool) : CustomData :=
  { CustomData.zeroed with h264_stream_supported := h264 }

/-- Whether a sink call is `start`. -/
def SinkCall.isStart : SinkCall → Bool
  | SinkCall.start _ => true
  | SinkCall.putFrame _ _ => false

/-- Whether a sink call is `putFrame`. -/
def SinkCall.isPutFrame : SinkCall → Bool
  | SinkCall.start _ => false
  | SinkCall.putFrame _ _ => true

/-- The frames handed to `putFrame`, in call order. -/
def forwardedFrames : List SinkCall → List Frame
  | [] => []
  | SinkCall.start _ :: cs => forwardedFrames cs
  | SinkCall.putFrame f _ :: cs => f :: forwardedFrames cs

/-! ## Capability negotiation -/

/-- The media types of the caps that the application builds. -/
inductive MediaType where
  /-- The type `"video/x-h264"`. -/
  | video_x_h264
  /-- The type `"video/x-raw"`. -/
  | video_x_raw
  deriving DecidableEq, Repr

/-- The field names of the caps that the application builds. -/
inductive CapsField where
  | width
  | height
  | framerate
  | format
  /-- The field `"stream-format"`. -/
  | stream_format
  | alignment
  | profile
  deriving DecidableEq, Repr

/-- A typed field value as passed to `gst_caps_new_simple`. -/
inductive GValue where
  | G_TYPE_INT (v : Int)
  | G_TYPE_STRING (v : String)
  | GST_TYPE_FRACTION_RANGE (min_num min_den max_num max_den : Int)
  deriving DecidableEq, Repr

/-- A caps value with one structure, as built by `gst_caps_new_simple`: the media type and
the fields in the order given. -/
structure GstCaps where
  media_type : MediaType
  fields : List (CapsField × GValue)
  deriving DecidableEq, Repr

/-- The function `gst_caps_new_simple`. -/
def gst_caps_new_simple (media_type : MediaType) (fields : List (CapsField × GValue)) :
    GstCaps :=
  { media_type := media_type, fields := fields }

/-- The function `gst_caps_set_simple` for one field: the field is set, replacing a
previous value of that name. -/
def gst_caps_set_simple (caps : GstCaps) (field : CapsField) (value : GValue) : GstCaps :=
  { caps with fields := caps.fields.filter (fun fv => fv.1 != field) ++ [(field, value)] }

/-- The element states that the application requests. -/
inductive GstState where
  | GST_STATE_NULL
  | GST_STATE_READY
  | GST_STATE_PLAYING
  deriving DecidableEq, Repr

/-- What GStreamer answers to the calls of the application. `SrcCaps` is the type of the
capability sets that `gst_pad_query_caps` returns. A field of type `Bool` tells whether
the call succeeds. -/
structure GstEnv (SrcCaps : Type) where
  /-- Whether `gst_element_factory_make` returns a non-null element. -/
  gst_element_factory_make : ElementFactory → ElementName → Bool
  /-- Whether `gst_pipeline_new` returns a non-null pipeline. -/
  gst_pipeline_new : Bool
  /-- Whether setting the source to `GST_STATE_READY` does not return
  `GST_STATE_CHANGE_FAILURE`. -/
  source_reaches_ready : GstElement → Bool
  /-- The capability set of the `src` pad of the source. -/
  gst_pad_query_caps : GstElement → SrcCaps
  /-- The function `gst_caps_can_intersect`. -/
  gst_caps_can_intersect : GstCaps → SrcCaps → Bool
  /-- Whether `gst_element_link_many` returns `TRUE`. -/
  gst_element_link_many : List GstElement → Bool
  /-- Whether setting the pipeline to `GST_STATE_PLAYING` does not return
  `GST_STATE_CHANGE_FAILURE`. -/
  pipeline_reaches_playing : Bool

/-- The function `format_supported_by_source`. The sum `framerate + 1` is taken in the
integers. -/
def format_supported_by_source {SrcCaps : Type} (env : GstEnv SrcCaps) (src_caps : SrcCaps)
    (h264_stream : Bool) (width height framerate : Int) : Bool :=
  let query_caps := gst_caps_new_simple
    (if h264_stream then MediaType.video_x_h264 else MediaType.video_x_raw)
    [(CapsField.width, GValue.G_TYPE_INT width),
     (CapsField.height, GValue.G_TYPE_INT height),
     (CapsField.framerate, GValue.GST_TYPE_FRACTION_RANGE framerate 1 (framerate + 1) 1)]
  env.gst_caps_can_intersect query_caps src_caps

/-- The function `resolution_supported`: its return value, and the struct with the mode
flag as it leaves it. -/
def resolution_supported {SrcCaps : Type} (env : GstEnv SrcCaps) (src_caps : SrcCaps)
    (data : CustomData) (width height framerate : Int) : Bool × CustomData :=
  if format_supported_by_source env src_caps true width height framerate then
    (true, { data with h264_stream_supported := true })
  else if format_supported_by_source env src_caps false width height framerate then
    (true, { data with h264_stream_supported := false })
  else
    (false, data)

/-! ## Set-up: `gstreamer_init` -/

/-- The calls with an effect that `gstreamer_init` makes, and what it prints, in order. -/
inductive Event where
  | log (m : LogMsg)
  | gst_init
  | kinesis_video_init (stream_name : String)
  | gst_element_factory_make (factory : ElementFactory) (name : ElementName)
  | gst_pipeline_new
  /-- The call `g_object_set` on the source with `"do-timestamp", TRUE` and
  `"device", "/dev/video0"`. -/
  | configure_source (source : GstElement)
  | gst_element_set_state (element : GstElement) (state : GstState)
  | gst_pad_query_caps (source : GstElement)
  /-- The call `g_object_set` of the `"caps"` property of a capsfilter. -/
  | set_caps (element : GstElement) (caps : GstCaps)
  /-- The call `g_object_set` on the encoder, with the properties and their values;
  `FALSE` is 0 and `TRUE` is 1. -/
  | configure_encoder (encoder : GstElement) (properties : List (String × Int))
  /-- The call `g_object_set` on the appsink (`"emit-signals", TRUE, "sync", FALSE`) and
  the connection of `on_new_sample` to its `new-sample` signal. -/
  | configure_appsink (appsink : GstElement)
  | gst_bin_add_many (elements : List GstElement)
  | gst_element_link_many (elements : List GstElement)
  /-- The call `gst_object_unref` on the pipeline. -/
  | unref_pipeline
  /-- The signal watch on the bus with `error_cb` connected to `message::error`. -/
  | watch_bus_errors
  | g_main_loop_run
  deriving DecidableEq, Repr

/-- The state of a run of `gstreamer_init` part of the way: either it has returned with an
exit status, or it goes on with a value; in both cases with the events so far. -/
inductive Step (α : Type) where
  | exit (status : Int) (events : List Event)
  | next (value : α) (events : List Event)
  deriving Repr

/-- Sequencing: the second part runs on the value of the first unless that has returned;
the events are appended. -/
def Step.andThen {α β : Type} : Step α → (α → Step β) → Step β
  | Step.exit status events, _ => Step.exit status events
  | Step.next value events, f =>
    match f value with
    | Step.exit status more => Step.exit status (events ++ more)
    | Step.next result more => Step.next result (events ++ more)

/-- The events of a step. -/
def Step.events {α : Type} : Step α → List Event
  | Step.exit _ events => events
  | Step.next _ events => events

/-- The locals `width`, `height`, `framerate` and `bitrateInKBPS`. -/
structure StreamFormat where
  width : Int
  height : Int
  framerate : Int
  bitrateInKBPS : Int
  deriving DecidableEq, Repr

/-- The initial values of the locals: `width = 0, height = 0, framerate = 30,
bitrateInKBPS = 512`. -/
def StreamFormat.initial : StreamFormat :=
  { width := 0, height := 0, framerate := 30, bitrateInKBPS := 512 }

/-- What `getopt` returns for the option string `"w:h:f:b:"`. -/
inductive OptionLetter where
  | w
  | h
  | f
  | b
  /-- Any other return value, such as the question mark. -/
  | other
  deriving DecidableEq, Repr

/-- One round of the option loop: the letter returned by `getopt`, the value that `strtol`
computes from `optarg` (as stored in the `int` local), and whether `*endptr` is the
terminating null character. -/
structure CliOption where
  letter : OptionLetter
  value : Int
  endptr_at_end : Bool
  deriving DecidableEq, Repr

/-- The option loop of `gstreamer_init`. -/
def parse_options : StreamFormat → List CliOption → Step StreamFormat
  | fmt, [] => Step.next fmt []
  | fmt, o :: os =>
    match o.letter with
    | OptionLetter.w =>
      if !o.endptr_at_end then Step.exit 1 [Event.log LogMsg.invalid_width]
      else parse_options { fmt with width := o.value } os
    | OptionLetter.h =>
      if !o.endptr_at_end then Step.exit 1 [Event.log LogMsg.invalid_height]
      else parse_options { fmt with height := o.value } os
    | OptionLetter.f =>
      if !o.endptr_at_end then Step.exit 1 [Event.log LogMsg.invalid_framerate]
      else parse_options { fmt with framerate := o.value } os
    | OptionLetter.b =>
      if !o.endptr_at_end then Step.exit 1 [Event.log LogMsg.invalid_bitrate]
      else parse_options { fmt with bitrateInKBPS := o.value } os
    | OptionLetter.other => Step.exit 1 [Event.log LogMsg.invalid_arguments]

/-- The result of `gst_element_factory_make`: the element, or null. -/
def factory_make {SrcCaps : Type} (env : GstEnv SrcCaps) (factory : ElementFactory)
    (name : ElementName) : Option GstElement :=
  if env.gst_element_factory_make factory name then some { factory := factory, name := name }
  else none

/-- The struct and the locals `vtenc` and `isOnRpi` after the elements are created;
`isOnRpi` is `none` while it is not assigned. -/
structure CreatedElements where
  data : CustomData
  vtenc : Bool
  isOnRpi : Option Bool
  deriving DecidableEq, Repr

/-- The part of `gstreamer_init` that creates the elements and the empty pipeline. -/
def create_elements {SrcCaps : Type} (env : GstEnv SrcCaps) (data : CustomData) :
    Step CreatedElements :=
  let data1 : CustomData :=
    { data with
      source_filter := factory_make env ElementFactory.capsfilter ElementName.source_filter
      filter := factory_make env ElementFactory.capsfilter ElementName.encoder_filter
      appsink := factory_make env ElementFactory.appsink ElementName.appsink
      h264parse := factory_make env ElementFactory.h264parse ElementName.h264parse }
  let events1 : List Event :=
    [Event.gst_element_factory_make ElementFactory.capsfilter ElementName.source_filter,
     Event.gst_element_factory_make ElementFactory.capsfilter ElementName.encoder_filter,
     Event.gst_element_factory_make ElementFactory.appsink ElementName.appsink,
     Event.gst_element_factory_make ElementFactory.h264parse ElementName.h264parse,
     Event.gst_element_factory_make ElementFactory.vtenc_h264_hw ElementName.encoder]
  let pipeline : Option GstElement :=
    if env.gst_pipeline_new then
      some { factory := ElementFactory.pipeline, name := ElementName.test_pipeline }
    else none
  match factory_make env ElementFactory.vtenc_h264_hw ElementName.encoder with
  | some encoder =>
    Step.next
      { data := { data1 with
                  encoder := some encoder
                  source := factory_make env ElementFactory.autovideosrc ElementName.source
                  pipeline := pipeline }
        vtenc := true
        isOnRpi := none }
      (events1 ++
        [Event.gst_element_factory_make ElementFactory.autovideosrc ElementName.source,
         Event.log LogMsg.vtenc_encoder,
         Event.gst_pipeline_new])
  | none =>
    match factory_make env ElementFactory.omxh264enc ElementName.encoder with
    | some encoder =>
      Step.next
        { data := { data1 with
                    encoder := some encoder
                    source := factory_make env ElementFactory.v4l2src ElementName.source
                    pipeline := pipeline }
          vtenc := false
          isOnRpi := some true }
        (events1 ++
          [Event.gst_element_factory_make ElementFactory.omxh264enc ElementName.encoder,
           Event.log LogMsg.on_rpi,
           Event.gst_element_factory_make ElementFactory.v4l2src ElementName.source,
           Event.log LogMsg.v4l2src_source,
           Event.gst_pipeline_new])
    | none =>
      Step.next
        { data := { data1 with
                    encoder := factory_make env ElementFactory.x264enc ElementName.encoder
                    source := factory_make env ElementFactory.v4l2src ElementName.source
                    pipeline := pipeline }
          vtenc := false
          isOnRpi := some false }
        (events1 ++
          [Event.gst_element_factory_make ElementFactory.omxh264enc ElementName.encoder,
           Event.gst_element_factory_make ElementFactory.x264enc ElementName.encoder,
           Event.log LogMsg.x264enc_encoder,
           Event.gst_element_factory_make ElementFactory.v4l2src ElementName.source,
           Event.log LogMsg.v4l2src_source,
           Event.gst_pipeline_new])

/-- The elements that `gstreamer_init` has checked to be non-null. -/
structure Elements where
  pipeline : GstElement
  source : GstElement
  source_filter : GstElement
  encoder : GstElement
  filter : GstElement
  appsink : GstElement
  h264parse : GstElement
  deriving DecidableEq, Repr

/-- What is printed when an element is null: the general message, then one message per
null element. -/
def not_created_messages (data : CustomData) : List Event :=
  [Event.log LogMsg.not_all_elements] ++
  (if data.pipeline.isNone then [Event.log LogMsg.pipeline_not_created] else []) ++
  (if data.source.isNone then [Event.log LogMsg.source_not_created] else []) ++
  (if data.source_filter.isNone then [Event.log LogMsg.source_filter_not_created] else []) ++
  (if data.encoder.isNone then [Event.log LogMsg.encoder_not_created] else []) ++
  (if data.filter.isNone then [Event.log LogMsg.filter_not_created] else []) ++
  (if data.appsink.isNone then [Event.log LogMsg.appsink_not_created] else []) ++
  (if data.h264parse.isNone then [Event.log LogMsg.h264parse_not_created] else [])

/-- The test that the pipeline and the six elements created so far are all non-null;
otherwise `gstreamer_init` returns 1. -/
def check_elements (data : CustomData) : Step Elements :=
  match data.pipeline with
  | none => Step.exit 1 (not_created_messages data)
  | some pipeline =>
  match data.source with
  | none => Step.exit 1 (not_created_messages data)
  | some source =>
  match data.source_filter with
  | none => Step.exit 1 (not_created_messages data)
  | some source_filter =>
  match data.encoder with
  | none => Step.exit 1 (not_created_messages data)
  | some encoder =>
  match data.filter with
  | none => Step.exit 1 (not_created_messages data)
  | some filter =>
  match data.appsink with
  | none => Step.exit 1 (not_created_messages data)
  | some appsink =>
  match data.h264parse with
  | none => Step.exit 1 (not_created_messages data)
  | some h264parse =>
    Step.next
      { pipeline := pipeline, source := source, source_filter := source_filter,
        encoder := encoder, filter := filter, appsink := appsink, h264parse := h264parse } []

/-- The capability probe: the source is set to `GST_STATE_READY`, the caps of its `src` pad
are queried, and the source is set back to `GST_STATE_NULL`. -/
def probe_source_caps {SrcCaps : Type} (env : GstEnv SrcCaps) (source : GstElement) :
    Step SrcCaps :=
  if !env.source_reaches_ready source then
    Step.exit 1 [Event.gst_element_set_state source GstState.GST_STATE_READY,
                 Event.log LogMsg.source_not_ready]
  else
    Step.next (env.gst_pad_query_caps source)
      [Event.gst_element_set_state source GstState.GST_STATE_READY,
       Event.gst_pad_query_caps source,
       Event.gst_element_set_state source GstState.GST_STATE_NULL]

/-- The vectors `res_width = {1920, 1280, 640}` and `res_height = {1080, 720, 480}`, index
by index. -/
def default_resolutions : List (Int × Int) :=
  [(1920, 1080), (1280, 720), (640, 480)]

/-- The loop over the default resolutions: `width` and `height` are assigned from the list
and the loop is left at the first supported pair. The result is `found_resolution`, the
struct, `width` and `height`. -/
def find_resolution {SrcCaps : Type} (env : GstEnv SrcCaps) (src_caps : SrcCaps)
    (framerate : Int) : CustomData → Int → Int → List (Int × Int) →
    Bool × CustomData × Int × Int
  | data, width, height, [] => (false, data, width, height)
  | data, _, _, (w, h) :: rest =>
    if (resolution_supported env src_caps data w h framerate).1 then
      (true, (resolution_supported env src_caps data w h framerate).2, w, h)
    else
      find_resolution env src_caps framerate
        (resolution_supported env src_caps data w h framerate).2 w h rest

/-- The part of `gstreamer_init` that settles the resolution and the mode flag: the
requested resolution if there is one, else the first supported default one. -/
def select_resolution {SrcCaps : Type} (env : GstEnv SrcCaps) (src_caps : SrcCaps)
    (data : CustomData) (fmt : StreamFormat) : Step (CustomData × StreamFormat) :=
  if fmt.width ≠ 0 ∧ fmt.height ≠ 0 then
    if !(resolution_supported env src_caps data fmt.width fmt.height fmt.framerate).1 then
      Step.exit 1 [Event.log (LogMsg.resolution_not_supported fmt.width fmt.height)]
    else
      Step.next
        ((resolution_supported env src_caps data fmt.width fmt.height fmt.framerate).2, fmt) []
  else
    match find_resolution env src_caps fmt.framerate data fmt.width fmt.height
        default_resolutions with
    | (true, data1, width, height) =>
      Step.next (data1, { fmt with width := width, height := height })
        [Event.log (LogMsg.found_matching_resolution width height)]
    | (false, _, _, _) =>
      Step.exit 1 [Event.log LogMsg.default_resolutions_not_supported]

/-- The part of `gstreamer_init` that creates `videoconvert` when the mode flag is not
set. -/
def create_video_convert {SrcCaps : Type} (env : GstEnv SrcCaps) (data : CustomData) :
    Step CustomData :=
  if !data.h264_stream_supported then
    match factory_make env ElementFactory.videoconvert ElementName.video_convert with
    | none =>
      Step.exit 1
        [Event.gst_element_factory_make ElementFactory.videoconvert ElementName.video_convert,
         Event.log LogMsg.video_convert_not_created]
    | some video_convert =>
      Step.next { data with video_convert := some video_convert }
        [Event.gst_element_factory_make ElementFactory.videoconvert ElementName.video_convert]
  else Step.next data []

/-- The caps set on `source_filter`. -/
def source_filter_caps (h264_stream_supported : Bool) (fmt : StreamFormat) : GstCaps :=
  if !h264_stream_supported then
    gst_caps_new_simple MediaType.video_x_raw
      [(CapsField.format, GValue.G_TYPE_STRING "I420"),
       (CapsField.width, GValue.G_TYPE_INT fmt.width),
       (CapsField.height, GValue.G_TYPE_INT fmt.height),
       (CapsField.framerate,
         GValue.GST_TYPE_FRACTION_RANGE fmt.framerate 1 (fmt.framerate + 1) 1)]
  else
    gst_caps_new_simple MediaType.video_x_h264
      [(CapsField.stream_format, GValue.G_TYPE_STRING "byte-stream"),
       (CapsField.alignment, GValue.G_TYPE_STRING "au")]

/-- The properties set on the encoder, by encoder kind; none in direct H.264 mode. The
product `bitrateInKBPS * 10000` is taken in the integers. -/
def encoder_properties (h264_stream_supported vtenc : Bool) (isOnRpi : Option Bool)
    (fmt : StreamFormat) : Option (List (String × Int)) :=
  if !h264_stream_supported then
    if vtenc then
      some [("allow-frame-reordering", 0), ("realtime", 1), ("max-keyframe-interval", 45),
            ("bitrate", fmt.bitrateInKBPS)]
    else if isOnRpi = some true then
      some [("control-rate", 1), ("target-bitrate", fmt.bitrateInKBPS * 10000),
            ("periodicity-idr", 45), ("inline-header", 0)]
    else
      some [("bframes", 0), ("key-int-max", 45), ("bitrate", fmt.bitrateInKBPS)]
  else none

/-- The caps set on `filter`, the capsfilter named `encoder_filter`. -/
def encoder_filter_caps (h264_stream_supported : Bool) (fmt : StreamFormat) : GstCaps :=
  let h264_caps := gst_caps_new_simple MediaType.video_x_h264
    [(CapsField.stream_format, GValue.G_TYPE_STRING "avc"),
     (CapsField.alignment, GValue.G_TYPE_STRING "au"),
     (CapsField.width, GValue.G_TYPE_INT fmt.width),
     (CapsField.height, GValue.G_TYPE_INT fmt.height),
     (CapsField.framerate,
       GValue.GST_TYPE_FRACTION_RANGE fmt.framerate 1 (fmt.framerate + 1) 1)]
  if !h264_stream_supported then
    gst_caps_set_simple h264_caps CapsField.profile (GValue.G_TYPE_STRING "baseline")
  else h264_caps

/-- The part of `gstreamer_init` that configures the source filter, the encoder, the
encoder filter and the appsink. -/
def configure_elements (els : Elements) (data : CustomData) (vtenc : Bool)
    (isOnRpi : Option Bool) (fmt : StreamFormat) : List Event :=
  [Event.set_caps els.source_filter (source_filter_caps data.h264_stream_supported fmt)] ++
  (match encoder_properties data.h264_stream_supported vtenc isOnRpi fmt with
   | some properties => [Event.configure_encoder els.encoder properties]
   | none => []) ++
  [Event.set_caps els.filter (encoder_filter_caps data.h264_stream_supported fmt),
   Event.configure_appsink els.appsink]

/-- The elements of a null-terminated argument list: those before the first null. -/
def until_null : List (Option GstElement) → List GstElement
  | [] => []
  | none :: _ => []
  | some e :: rest => e :: until_null rest

/-- The chain of elements that is added to the pipeline and linked, by mode. -/
def pipeline_chain (els : Elements) (data : CustomData) : List GstElement :=
  if !data.h264_stream_supported then
    until_null [some els.source, data.video_convert, some els.source_filter, some els.encoder,
      some els.h264parse, some els.filter, some els.appsink]
  else
    until_null [some els.source, some els.h264parse, some els.filter, some els.appsink]

/-- The part of `gstreamer_init` that adds the elements to the pipeline and links them. -/
def build_pipeline {SrcCaps : Type} (env : GstEnv SrcCaps) (els : Elements)
    (data : CustomData) : Step Unit :=
  if !env.gst_element_link_many (pipeline_chain els data) then
    Step.exit 1
      [Event.gst_bin_add_many (pipeline_chain els data),
       Event.gst_element_link_many (pipeline_chain els data),
       Event.log LogMsg.elements_not_linked,
       Event.unref_pipeline]
  else
    Step.next ()
      [Event.gst_bin_add_many (pipeline_chain els data),
       Event.gst_element_link_many (pipeline_chain els data)]

/-- The end of `gstreamer_init`: the bus is watched, the pipeline is set to playing, the
main loop runs until it is quit, and the pipeline is set to null and released. -/
def run_pipeline {SrcCaps : Type} (env : GstEnv SrcCaps) (els : Elements) : Step Unit :=
  if !env.pipeline_reaches_playing then
    Step.exit 1
      [Event.watch_bus_errors,
       Event.gst_element_set_state els.pipeline GstState.GST_STATE_PLAYING,
       Event.log LogMsg.pipeline_not_playing,
       Event.unref_pipeline]
  else
    Step.exit 0
      [Event.watch_bus_errors,
       Event.gst_element_set_state els.pipeline GstState.GST_STATE_PLAYING,
       Event.g_main_loop_run,
       Event.gst_element_set_state els.pipeline GstState.GST_STATE_NULL,
       Event.unref_pipeline]

/-- The test on the requested resolution: exactly one of `width` and `height` being zero
is rejected. -/
def check_resolution_request (fmt : StreamFormat) : Step Unit :=
  if (fmt.width = 0 ∧ fmt.height ≠ 0) ∨ (fmt.width ≠ 0 ∧ fmt.height = 0) then
    Step.exit 1 [Event.log LogMsg.invalid_resolution]
  else Step.next () []

/-- The function `gstreamer_init`. `argc` is the argument count, `options` the rounds of
the option loop, `stream_name` the argument `argv[optind]`. `kinesis_video_init` is
recorded as one event. -/
def gstreamer_init {SrcCaps : Type} (env : GstEnv SrcCaps) (argc : Nat)
    (options : List CliOption) (stream_name : String) : Step Unit :=
  if argc < 2 then Step.exit 1 [Event.log LogMsg.usage]
  else
    (Step.next () [Event.gst_init]).andThen fun _ =>
    (parse_options StreamFormat.initial options).andThen fun fmt =>
    (Step.next () [Event.kinesis_video_init stream_name]).andThen fun _ =>
    (check_resolution_request fmt).andThen fun _ =>
    (create_elements env CustomData.zeroed).andThen fun created =>
    (check_elements created.data).andThen fun els =>
    (Step.next () (if !created.vtenc then [Event.configure_source els.source] else [])).andThen
      fun _ =>
    (probe_source_caps env els.source).andThen fun src_caps =>
    (select_resolution env src_caps created.data fmt).andThen fun selected =>
    (create_video_convert env selected.1).andThen fun data =>
    (Step.next () (configure_elements els data created.vtenc created.isOnRpi selected.2)).andThen
      fun _ =>
    (build_pipeline env els data).andThen fun _ =>
    run_pipeline env els

/-- The exit status of a run that has returned. -/
def Step.status {α : Type} : Step α → Option Int
  | Step.exit status _ => some status
  | Step.next _ _ => none

/-- Whether an event belongs to the capability probe. -/
def Event.isProbe : Event → Bool
  | Event.gst_element_set_state _ _ => true
  | Event.gst_pad_query_caps _ => true
  | _ => false

/-! ## Negotiation: the wording of the specification -/

/-- The synthetic wanted descriptor of the specification for one codec mode, resolution
and frame rate: H.264 video or raw video, of exactly that width and that height, with a
frame rate in the range from the requested rate to the requested rate plus one. -/
def wantedDescriptor (h264 : Bool) (width height framerate : Int) : GstCaps :=
  { media_type := if h264 then MediaType.video_x_h264 else MediaType.video_x_raw
    fields :=
      [(CapsField.width, GValue.G_TYPE_INT width),
       (CapsField.height, GValue.G_TYPE_INT height),
       (CapsField.framerate, GValue.GST_TYPE_FRACTION_RANGE framerate 1 (framerate + 1) 1)] }

/-- Step 2 of the negotiation: the first pair of the preference list (1920,1080),
(1280,720), (640,480) at which the wanted H.264 descriptor or the wanted raw descriptor
intersects the capability set, with the mode found there: direct H.264 if the H.264
descriptor intersects, raw otherwise. -/
def firstSupportedDefault {SrcCaps : Type} (env : GstEnv SrcCaps) (src_caps : SrcCaps)
    (framerate : Int) : Option ((Int × Int) × Bool) :=
  ([(1920, 1080), (1280, 720), (640, 480)].find? (fun p =>
      env.gst_caps_can_intersect (wantedDescriptor true p.1 p.2 framerate) src_caps ||
      env.gst_caps_can_intersect (wantedDescriptor false p.1 p.2 framerate) src_caps)).map
    (fun p =>
      (p, env.gst_caps_can_intersect (wantedDescriptor true p.1 p.2 framerate) src_caps))

/-! ## Negotiation: a concrete capability model used in examples -/

/-- One advertised format of a simple source: media type, frame size, and a range of
whole-number frame rates. -/
structure AdvertisedFormat where
  media_type : MediaType
  width : Int
  height : Int
  framerate_min : Int
  framerate_max : Int
  deriving DecidableEq, Repr

/-- Modelled from the spec: `gst_caps_can_intersect` of GStreamer is not under `src/`.
For a source that advertises a list of formats, a wanted descriptor intersects when some
format has its media type, its width and its height, and the wanted half-open
frame-rate range `[min, max)` meets the advertised range. -/
def simple_can_intersect (wanted : GstCaps) (advertised : List AdvertisedFormat) : Bool :=
  advertised.any fun a =>
    a.media_type == wanted.media_type &&
    wanted.fields.all fun fv =>
      match fv with
      | (CapsField.width, GValue.G_TYPE_INT w) => w == a.width
      | (CapsField.height, GValue.G_TYPE_INT h) => h == a.height
      | (CapsField.framerate, GValue.GST_TYPE_FRACTION_RANGE n1 d1 n2 d2) =>
        decide (n1 ≤ a.framerate_max * d1) && decide (a.framerate_min * d2 < n2)
      | _ => true

/-- A capability set that holds only raw video at 640x480 and 30 frames per second. -/
def rawVgaOnly : List AdvertisedFormat :=
  [{ media_type := MediaType.video_x_raw, width := 640, height := 480,
     framerate_min := 30, framerate_max := 30 }]

/-- A capability set with H.264 at 1920x1080 at 15 frames per second only, H.264 and raw
video at 1280x720 at 30 frames per second, and raw video at 640x480 at 30 frames per
second. -/
def mixedCamera : List AdvertisedFormat :=
  [{ media_type := MediaType.video_x_h264, width := 1920, height := 1080,
     framerate_min := 15, framerate_max := 15 },
   { media_type := MediaType.video_x_h264, width := 1280, height := 720,
     framerate_min := 30, framerate_max := 30 },
   { media_type := MediaType.video_x_raw, width := 1280, height := 720,
     framerate_min := 30, framerate_max := 30 },
   { media_type := MediaType.video_x_raw, width := 640, height := 480,
     framerate_min := 30, framerate_max := 30 }]

/-- An environment in which every element can be created and linked, and the source
advertises `rawVgaOnly`. -/
def exampleEnv : GstEnv (List AdvertisedFormat) :=
  { gst_element_factory_make := fun _ _ => true
    gst_pipeline_new := true
    source_reaches_ready := fun _ => true
    gst_pad_query_caps := fun _ => rawVgaOnly
    gst_caps_can_intersect := simple_can_intersect
    gst_element_link_many := fun _ => true
    pipeline_reaches_playing := true }

/-! ## Assembly: the wording of the specification -/

/-- The three encoder kinds of the specification. -/
inductive EncoderKind where
  | HardwareVendorEncoder
  | EmbeddedBoardEncoder
  | SoftwareEncoder
  deriving DecidableEq, Repr

/-- The element factory of an encoder kind: `vtenc_h264_hw`, `omxh264enc`, `x264enc`. -/
def EncoderKind.factory : EncoderKind → ElementFactory
  | EncoderKind.HardwareVendorEncoder => ElementFactory.vtenc_h264_hw
  | EncoderKind.EmbeddedBoardEncoder => ElementFactory.omxh264enc
  | EncoderKind.SoftwareEncoder => ElementFactory.x264enc

/-- The place of an encoder kind in the priority order, the first being 0. -/
def EncoderKind.priority : EncoderKind → Nat
  | EncoderKind.HardwareVendorEncoder => 0
  | EncoderKind.EmbeddedBoardEncoder => 1
  | EncoderKind.SoftwareEncoder => 2

/-- Whether an encoder of the kind can be instantiated under the name `encoder`. -/
def EncoderKind.available {SrcCaps : Type} (env : GstEnv SrcCaps) (k : EncoderKind) : Bool :=
  env.gst_element_factory_make k.factory ElementName.encoder

/-- The encoder kind that the specification selects: the first that can be instantiated
in the order hardware vendor, embedded board, software. -/
def firstAvailableEncoder {SrcCaps : Type} (env : GstEnv SrcCaps) : Option EncoderKind :=
  [EncoderKind.HardwareVendorEncoder, EncoderKind.EmbeddedBoardEncoder,
    EncoderKind.SoftwareEncoder].find? (fun k => k.available env)

/-- The capture source that the specification couples to the encoder choice:
`autovideosrc` when the hardware vendor encoder is available, `v4l2src` otherwise. -/
def coupledSource {SrcCaps : Type} (env : GstEnv SrcCaps) : ElementFactory :=
  if EncoderKind.HardwareVendorEncoder.available env then ElementFactory.autovideosrc
  else ElementFactory.v4l2src

/-- The passthrough chain of the specification: source, input-format filter, bitstream
normalizer, output filter, sink tap. -/
def passthroughChain (els : Elements) : List GstElement :=
  [els.source, els.source_filter, els.h264parse, els.filter, els.appsink]

/-- The field names of a caps value, in order. -/
def GstCaps.fieldNames (caps : GstCaps) : List CapsField :=
  caps.fields.map (fun fv => fv.1)

/-! ## Assembly: concrete inputs used in examples -/

/-- A capability set that holds only H.264 video at 1280x720 and 30 frames per second. -/
def h264HdOnly : List AdvertisedFormat :=
  [{ media_type := MediaType.video_x_h264, width := 1280, height := 720,
     framerate_min := 30, framerate_max := 30 }]

/-- An environment in which every element can be created and linked, and the source
advertises `h264HdOnly`. -/
def h264CameraEnv : GstEnv (List AdvertisedFormat) :=
  { exampleEnv with gst_pad_query_caps := fun _ => h264HdOnly }

/-- The environment `h264CameraEnv` without any of the three encoders. -/
def noEncoderEnv : GstEnv (List AdvertisedFormat) :=
  { h264CameraEnv with
    gst_element_factory_make := fun factory _ =>
      factory != ElementFactory.vtenc_h264_hw && factory != ElementFactory.omxh264enc &&
        factory != ElementFactory.x264enc }

/-- An environment with the embedded-board and the software encoder but not the hardware
vendor one. -/
def embeddedBoardEnv : GstEnv (List AdvertisedFormat) :=
  { exampleEnv with
    gst_element_factory_make := fun factory _ => factory != ElementFactory.vtenc_h264_hw }

/-- The elements of a run in which the source is `v4l2src` and the encoder `x264enc`. -/
def exampleElements : Elements :=
  { pipeline := { factory := ElementFactory.pipeline, name := ElementName.test_pipeline }
    source := { factory := ElementFactory.v4l2src, name := ElementName.source }
    source_filter := { factory := ElementFactory.capsfilter, name := ElementName.source_filter }
    encoder := { factory := ElementFactory.x264enc, name := ElementName.encoder }
    filter := { factory := ElementFactory.capsfilter, name := ElementName.encoder_filter }
    appsink := { factory := ElementFactory.appsink, name := ElementName.appsink }
    h264parse := { factory := ElementFactory.h264parse, name := ElementName.h264parse } }

end KvsGstDemo

namespace KvsGstDemo

/-! ## Bridge: auxiliary facts -/

theorem static_cast_nanoseconds (t : Nat) (h : t < 2 ^ 64) :
    static_cast_UINT64 (nanoseconds t) = t := by
  unfold static_cast_UINT64 nanoseconds
  rw [Nat.mod_eq_of_lt h]
  split
  · have h2 : ((t : Int) % 2 ^ 64) = (t : Int) := by
      apply Int.emod_eq_of_lt <;> omega
    rw [h2]; simp
  · have h2 : (((t : Int) - 2 ^ 64) % 2 ^ 64) = (t : Int) := by
      rw [Int.sub_emod, Int.emod_self, sub_zero, Int.emod_emod]
      apply Int.emod_eq_of_lt <;> omega
    rw [h2]; simp

theorem on_new_sample_eq (K : SdkConstants) (s : GstSample) (a : Bool) (data : CustomData) :
    on_new_sample K s a data =
      { ret := GstFlowReturn.GST_FLOW_OK
        data := { data with stream_started := true }
        calls := (if data.stream_started then [] else [SinkCall.start s.codec_data]) ++
          (if forwarded s.buffer then
            [SinkCall.putFrame (builtFrame K data.h264_stream_supported s.buffer) a] else [])
        log := if forwarded s.buffer && !a then [LogMsg.dropped_frame] else [] } := by
  rcases s with ⟨cpd, ⟨pts, dts, c, d, h, dl, pl, hp, hd⟩⟩
  rcases data with ⟨p1, p2, p3, p4, p5, p6, p7, p8, st, h264⟩
  have e1 := static_cast_nanoseconds pts hp
  have e2 := static_cast_nanoseconds dts hd
  cases st <;> cases h264 <;> cases c <;> cases d <;> cases h <;> cases dl <;> cases a <;>
    cases v1 : (pts == GST_CLOCK_TIME_NONE) <;> cases v2 : (dts == GST_CLOCK_TIME_NONE) <;>
    simp [on_new_sample, forwarded, builtFrame, put_frame, create_kinesis_video_frame,
      GST_BUFFER_PTS_IS_VALID, GST_BUFFER_DTS_IS_VALID, safeguardedPts, static_cast_UINT32,
      e1, e2, v1, v2, bne]

theorem deliver_all_calls (K : SdkConstants) (data : CustomData) (ds : List Delivery) :
    (deliver_all K data ds).calls =
      startCalls data.stream_started ds ++ putFrameCalls K data.h264_stream_supported ds := by
  induction ds generalizing data with
  | nil => simp [deliver_all, startCalls, putFrameCalls]
  | cons d ds ih =>
    have hrest : startCalls true ds = [] := by cases ds <;> simp [startCalls]
    simp only [deliver_all, on_new_sample_eq, ih, hrest, startCalls, putFrameCalls,
      List.filter_cons, List.nil_append]
    cases data.stream_started <;> cases forwarded d.sample.buffer <;> cases ds <;> simp

theorem deliver_all_data (K : SdkConstants) (data : CustomData) (ds : List Delivery)
    (hne : ds ≠ []) :
    (deliver_all K data ds).data = { data with stream_started := true } := by
  induction ds generalizing data with
  | nil => exact absurd rfl hne
  | cons d ds ih =>
    cases ds with
    | nil => simp [deliver_all, on_new_sample_eq]
    | cons e es =>
      have := ih { data with stream_started := true } (by simp)
      simp only [deliver_all, on_new_sample_eq] at this ⊢
      simpa using this

theorem forwardedFrames_append (xs ys : List SinkCall) :
    forwardedFrames (xs ++ ys) = forwardedFrames xs ++ forwardedFrames ys := by
  induction xs with
  | nil => rfl
  | cons x xs ih => cases x <;> simp [forwardedFrames, ih]

theorem forwardedFrames_startCalls (st : Bool) (ds : List Delivery) :
    forwardedFrames (startCalls st ds) = [] := by
  cases ds <;> cases st <;> simp [startCalls, forwardedFrames]

theorem forwardedFrames_putFrameCalls (K : SdkConstants) (h264 : Bool) (ds : List Delivery) :
    forwardedFrames (putFrameCalls K h264 ds) =
      (ds.filter (fun d => forwarded d.sample.buffer)).map
        (fun d => builtFrame K h264 d.sample.buffer) := by
  unfold putFrameCalls
  induction ds.filter (fun d => forwarded d.sample.buffer) with
  | nil => rfl
  | cons d ds ih => simp [forwardedFrames, ih]

theorem putFrameCalls_all_putFrame (K : SdkConstants) (h264 : Bool) (ds : List Delivery) :
    ∀ c ∈ putFrameCalls K h264 ds, c.isPutFrame = true ∧ c.isStart = false := by
  intro c hc
  simp only [putFrameCalls, List.mem_map] at hc
  obtain ⟨d, _, rfl⟩ := hc
  simp [SinkCall.isPutFrame, SinkCall.isStart]

theorem putFrameCalls_ne_nil (K : SdkConstants) (h264 : Bool) (ds : List Delivery)
    (h : ∃ d ∈ ds, forwarded d.sample.buffer = true) : putFrameCalls K h264 ds ≠ [] := by
  obtain ⟨d, hd, hf⟩ := h
  intro hnil
  have hmem : SinkCall.putFrame (builtFrame K h264 d.sample.buffer) d.sinkAnswer ∈
      putFrameCalls K h264 ds := by
    simp only [putFrameCalls, List.mem_map, List.mem_filter]
    exact ⟨d, ⟨hd, by simpa using hf⟩, rfl⟩
  rw [hnil] at hmem
  exact absurd hmem (List.not_mem_nil _)

/-- C1: for every sequence of deliveries with at least one forwarded buffer, run from a
session that has not started, `start` is called exactly once, and that call comes
strictly before the first `putFrame` (which exists). -/
theorem C1_start_once_before_first_putFrame (K : SdkConstants) (data : CustomData)
    (ds : List Delivery) (h0 : data.stream_started = false)
    (h : ∃ d ∈ ds, forwarded d.sample.buffer = true) :
    ((deliver_all K data ds).calls.filter SinkCall.isStart).length = 1 ∧
    (deliver_all K data ds).calls.findIdx SinkCall.isStart <
      (deliver_all K data ds).calls.findIdx SinkCall.isPutFrame ∧
    (deliver_all K data ds).calls.findIdx SinkCall.isPutFrame <
      (deliver_all K data ds).calls.length := by
  have hne := putFrameCalls_ne_nil K data.h264_stream_supported ds h
  have hall := putFrameCalls_all_putFrame K data.h264_stream_supported ds
  rw [deliver_all_calls, h0]
  cases ds with
  | nil => obtain ⟨d, hd, _⟩ := h; exact absurd hd (List.not_mem_nil _)
  | cons d ds =>
    generalize putFrameCalls K data.h264_stream_supported (d :: ds) = pf at hne hall
    cases pf with
    | nil => exact absurd rfl hne
    | cons c cs =>
      have hc := hall c (List.mem_cons_self _ _)
      have hfil : List.filter SinkCall.isStart (c :: cs) = [] := by
        rw [List.filter_eq_nil_iff]
        intro x hx
        simp [(hall x hx).2]
      simp only [startCalls, Bool.false_eq_true, if_false, List.singleton_append]
      refine ⟨?_, ?_, ?_⟩
      · rw [List.filter_cons]
        simp [SinkCall.isStart, hfil]
      · have hs : SinkCall.isPutFrame (SinkCall.start d.sample.codec_data) = false := rfl
        have ht : SinkCall.isStart (SinkCall.start d.sample.codec_data) = true := rfl
        simp [List.findIdx_cons, hs, ht, hc.1]
      · have hs : SinkCall.isPutFrame (SinkCall.start d.sample.codec_data) = false := rfl
        simp [List.findIdx_cons, hs, hc.1]

/-- Witness of C1: a dropped header buffer followed by a key frame, from the zeroed
struct. -/
theorem C1_start_once_before_first_putFrame_witness :
    CustomData.zeroed.stream_started = false ∧
    (∃ d ∈ [Delivery.mk headerWithoutPts true, Delivery.mk keyFrameSample true],
      forwarded d.sample.buffer = true) ∧
    ((deliver_all exampleConstants CustomData.zeroed
        [Delivery.mk headerWithoutPts true, Delivery.mk keyFrameSample true]).calls.filter
          SinkCall.isStart).length = 1 :=
  ⟨rfl, ⟨Delivery.mk keyFrameSample true, by simp, by decide⟩,
    (C1_start_once_before_first_putFrame exampleConstants CustomData.zeroed
      [Delivery.mk headerWithoutPts true, Delivery.mk keyFrameSample true] rfl
      ⟨Delivery.mk keyFrameSample true, by simp, by decide⟩).1⟩

/-- C2: for every buffer, `on_new_sample` hands exactly one frame to `putFrame` if and only
if the buffer is not flagged corrupted, not flagged decode-only, and is not a header
buffer with an invalid presentation or decoding time stamp; otherwise it builds no frame
and makes no `putFrame` call. -/
theorem C2_forward_iff_not_dropped (K : SdkConstants) (s : GstSample) (a : Bool)
    (data : CustomData) :
    ((∃ f, forwardedFrames (on_new_sample K s a data).calls = [f]) ↔
      (s.buffer.GST_BUFFER_FLAG_CORRUPTED = false ∧
       s.buffer.GST_BUFFER_FLAG_DECODE_ONLY = false ∧
       ¬ (s.buffer.GST_BUFFER_FLAG_HEADER = true ∧
          (GST_BUFFER_PTS_IS_VALID s.buffer = false ∨
           GST_BUFFER_DTS_IS_VALID s.buffer = false)))) ∧
    ((forwardedFrames (on_new_sample K s a data).calls = [] ∧
        (on_new_sample K s a data).calls.filter SinkCall.isPutFrame = []) ↔
      ¬ (s.buffer.GST_BUFFER_FLAG_CORRUPTED = false ∧
         s.buffer.GST_BUFFER_FLAG_DECODE_ONLY = false ∧
         ¬ (s.buffer.GST_BUFFER_FLAG_HEADER = true ∧
            (GST_BUFFER_PTS_IS_VALID s.buffer = false ∨
             GST_BUFFER_DTS_IS_VALID s.buffer = false)))) := by
  rw [on_new_sample_eq]
  simp only [forwardedFrames_append]
  have hcond : forwarded s.buffer = true ↔
      (s.buffer.GST_BUFFER_FLAG_CORRUPTED = false ∧
       s.buffer.GST_BUFFER_FLAG_DECODE_ONLY = false ∧
       ¬ (s.buffer.GST_BUFFER_FLAG_HEADER = true ∧
          (GST_BUFFER_PTS_IS_VALID s.buffer = false ∨
           GST_BUFFER_DTS_IS_VALID s.buffer = false))) := by
    simp only [forwarded, GST_BUFFER_PTS_IS_VALID, GST_BUFFER_DTS_IS_VALID]
    cases s.buffer.GST_BUFFER_FLAG_CORRUPTED <;> cases s.buffer.GST_BUFFER_FLAG_DECODE_ONLY <;>
      cases s.buffer.GST_BUFFER_FLAG_HEADER <;>
      by_cases v1 : s.buffer.pts = GST_CLOCK_TIME_NONE <;>
      by_cases v2 : s.buffer.dts = GST_CLOCK_TIME_NONE <;> simp [bne, v1, v2]
  rw [← hcond]
  cases data.stream_started <;> cases forwarded s.buffer <;>
    simp [forwardedFrames, SinkCall.isPutFrame]

/-- C3, as stated, fails: a header buffer with an invalid presentation time stamp delivered
to a session that has not started is dropped, yet `start` has been called and the
started flag is set. -/
theorem C3_counterexample_start_on_dropped_header :
    CustomData.zeroed.stream_started = false ∧
    headerWithoutPts.buffer.GST_BUFFER_FLAG_HEADER = true ∧
    GST_BUFFER_PTS_IS_VALID headerWithoutPts.buffer = false ∧
    forwardedFrames
      (on_new_sample exampleConstants headerWithoutPts true CustomData.zeroed).calls = [] ∧
    (on_new_sample exampleConstants headerWithoutPts true CustomData.zeroed).calls =
      [SinkCall.start "codec-data-0"] ∧
    (on_new_sample exampleConstants headerWithoutPts true CustomData.zeroed).data.stream_started
      = true := by
  refine ⟨rfl, rfl, by decide, ?_, ?_, ?_⟩
  · rw [on_new_sample_eq]; decide
  · rw [on_new_sample_eq]; decide
  · rw [on_new_sample_eq]

/-- C3, amended: `start` is called, and the started flag set, on the first delivered buffer,
droppable or not. A header buffer with an invalid presentation time stamp delivered to
a session that has not started is dropped, and `start` has been called with the codec
data of its sample; a following valid key-frame buffer causes no second `start` and
exactly one `putFrame`, of a frame flagged as key frame. -/
theorem C3_start_on_first_delivered_buffer (K : SdkConstants) (hdr key : GstSample)
    (a1 a2 : Bool) (data : CustomData)
    (h0 : data.stream_started = false)
    (hh : hdr.buffer.GST_BUFFER_FLAG_HEADER = true)
    (hp : GST_BUFFER_PTS_IS_VALID hdr.buffer = false)
    (hkc : key.buffer.GST_BUFFER_FLAG_CORRUPTED = false)
    (hko : key.buffer.GST_BUFFER_FLAG_DECODE_ONLY = false)
    (hkp : GST_BUFFER_PTS_IS_VALID key.buffer = true)
    (hkd : GST_BUFFER_DTS_IS_VALID key.buffer = true)
    (hkk : key.buffer.GST_BUFFER_FLAG_DELTA_UNIT = false) :
    (∀ (s : GstSample) (a : Bool),
      (on_new_sample K s a data).calls.head? = some (SinkCall.start s.codec_data) ∧
      (on_new_sample K s a data).data.stream_started = true) ∧
    (on_new_sample K hdr a1 data).calls = [SinkCall.start hdr.codec_data] ∧
    (on_new_sample K hdr a1 data).data.stream_started = true ∧
    ∃ f, (on_new_sample K key a2 (on_new_sample K hdr a1 data).data).calls =
        [SinkCall.putFrame f a2] ∧
      f.flags = FRAME_FLAGS.FRAME_FLAG_KEY_FRAME := by
  have hdrop : forwarded hdr.buffer = false := by
    simp only [GST_BUFFER_PTS_IS_VALID, bne, Bool.not_eq_false'] at hp
    simp [forwarded, hh, hp]
  have hfwd : forwarded key.buffer = true := by
    simp only [GST_BUFFER_PTS_IS_VALID, GST_BUFFER_DTS_IS_VALID, bne, Bool.not_eq_true'] at hkp hkd
    simp [forwarded, hkc, hko, hkp, hkd]
  refine ⟨?_, ?_, ?_, ?_⟩
  · intro s a
    simp [on_new_sample_eq, h0]
  · simp [on_new_sample_eq, h0, hdrop]
  · simp [on_new_sample_eq]
  · refine ⟨builtFrame K data.h264_stream_supported key.buffer, ?_, ?_⟩
    · simp [on_new_sample_eq, hfwd]
    · simp [builtFrame, hkk]

/-- Witness of C3 (amended): the header buffer without presentation time stamp, then the
key frame, from the zeroed struct. -/
theorem C3_start_on_first_delivered_buffer_witness :
    (on_new_sample exampleConstants headerWithoutPts true CustomData.zeroed).calls =
      [SinkCall.start headerWithoutPts.codec_data] ∧
    (on_new_sample exampleConstants headerWithoutPts true CustomData.zeroed).data.stream_started
      = true ∧
    ∃ f, (on_new_sample exampleConstants keyFrameSample true
          (on_new_sample exampleConstants headerWithoutPts true CustomData.zeroed).data).calls =
        [SinkCall.putFrame f true] ∧
      f.flags = FRAME_FLAGS.FRAME_FLAG_KEY_FRAME :=
  (C3_start_on_first_delivered_buffer exampleConstants headerWithoutPts keyFrameSample
    true true CustomData.zeroed rfl rfl (by decide) rfl rfl (by decide) (by decide) rfl).2

/-- C4: for every forwarded key-frame buffer (delta flag not set), exactly one frame is
handed to the sink; in direct H.264 mode its presentation time stamp equals its
decoding time stamp, which is the buffer's DTS converted; in raw-encode mode its
presentation time stamp is the buffer's own PTS converted. -/
theorem C4_keyframe_pts_safeguard (K : SdkConstants) (s : GstSample) (a : Bool)
    (data : CustomData) (hf : forwarded s.buffer = true)
    (hk : s.buffer.GST_BUFFER_FLAG_DELTA_UNIT = false) :
    ∃ f, forwardedFrames (on_new_sample K s a data).calls = [f] ∧
      f.decodingTs = s.buffer.dts / K.DEFAULT_TIME_UNIT_IN_NANOS ∧
      (data.h264_stream_supported = true → f.presentationTs = f.decodingTs) ∧
      (data.h264_stream_supported = false →
        f.presentationTs = s.buffer.pts / K.DEFAULT_TIME_UNIT_IN_NANOS) := by
  refine ⟨builtFrame K data.h264_stream_supported s.buffer, ?_, rfl, ?_, ?_⟩
  · rw [on_new_sample_eq]
    cases data.stream_started <;> simp [forwardedFrames, hf]
  · intro h; simp [builtFrame, safeguardedPts, hk, h]
  · intro h; simp [builtFrame, safeguardedPts, h]

/-- Witness of C4: the key frame with PTS 2000 ns and DTS 250 ns, in direct H.264 mode. -/
theorem C4_keyframe_pts_safeguard_witness :
    ∃ f, forwardedFrames
        (on_new_sample exampleConstants keyFrameSample true (sessionInMode true)).calls = [f] ∧
      f.decodingTs = keyFrameSample.buffer.dts / exampleConstants.DEFAULT_TIME_UNIT_IN_NANOS ∧
      ((sessionInMode true).h264_stream_supported = true → f.presentationTs = f.decodingTs) ∧
      ((sessionInMode true).h264_stream_supported = false →
        f.presentationTs =
          keyFrameSample.buffer.pts / exampleConstants.DEFAULT_TIME_UNIT_IN_NANOS) :=
  C4_keyframe_pts_safeguard exampleConstants keyFrameSample true (sessionInMode true)
    (by decide) rfl

/-- C5: for every forwarded buffer, the frame handed to the sink is the reference
construction: DTS and (safeguarded) PTS divided by the sink time unit, truncated; the
fixed duration `10 * HUNDREDS_OF_NANOS_IN_A_MILLISECOND`, whatever the time stamps; the
key-frame flag exactly when the buffer is not a delta unit. -/
theorem C5_frame_is_reference_construction (K : SdkConstants) (s : GstSample) (a : Bool)
    (data : CustomData) (hf : forwarded s.buffer = true)
    (hu : 0 < K.DEFAULT_TIME_UNIT_IN_NANOS)
    (hd : 10 * K.HUNDREDS_OF_NANOS_IN_A_MILLISECOND < 2 ^ 64) :
    ∃ f, forwardedFrames (on_new_sample K s a data).calls = [f] ∧
      f = referenceFrame K data.h264_stream_supported s.buffer ∧
      f.decodingTs * K.DEFAULT_TIME_UNIT_IN_NANOS ≤ s.buffer.dts ∧
      s.buffer.dts < (f.decodingTs + 1) * K.DEFAULT_TIME_UNIT_IN_NANOS ∧
      f.presentationTs * K.DEFAULT_TIME_UNIT_IN_NANOS ≤
        safeguardedPts data.h264_stream_supported s.buffer ∧
      safeguardedPts data.h264_stream_supported s.buffer <
        (f.presentationTs + 1) * K.DEFAULT_TIME_UNIT_IN_NANOS ∧
      f.duration = 10 * K.HUNDREDS_OF_NANOS_IN_A_MILLISECOND ∧
      (f.flags = FRAME_FLAGS.FRAME_FLAG_KEY_FRAME ↔
        s.buffer.GST_BUFFER_FLAG_DELTA_UNIT = false) := by
  refine ⟨builtFrame K data.h264_stream_supported s.buffer, ?_, ?_, ?_, ?_, ?_, ?_, ?_, ?_⟩
  · rw [on_new_sample_eq]
    cases data.stream_started <;> simp [forwardedFrames, hf]
  · have hm := Nat.mod_eq_of_lt hd
    simp only [builtFrame, referenceFrame, hm]
  · exact Nat.div_mul_le_self _ _
  · exact (Nat.div_lt_iff_lt_mul hu).mp (Nat.lt_succ_self _)
  · exact Nat.div_mul_le_self _ _
  · exact (Nat.div_lt_iff_lt_mul hu).mp (Nat.lt_succ_self _)
  · exact Nat.mod_eq_of_lt hd
  · cases hdl : s.buffer.GST_BUFFER_FLAG_DELTA_UNIT <;> simp [builtFrame, hdl]

/-- Witness of C5: the key frame in raw-encode mode, with a time unit of 100 ns. -/
theorem C5_frame_is_reference_construction_witness :
    ∃ f, forwardedFrames
        (on_new_sample exampleConstants keyFrameSample true (sessionInMode false)).calls = [f] ∧
      f = referenceFrame exampleConstants false keyFrameSample.buffer ∧
      f.decodingTs = 2 ∧ f.presentationTs = 20 ∧ f.duration = 100000 := by
  obtain ⟨f, h1, h2, -⟩ := C5_frame_is_reference_construction exampleConstants keyFrameSample
    true (sessionInMode false) (by decide) (by decide) (by decide)
  exact ⟨f, h1, h2, by rw [h2]; decide, by rw [h2]; decide, by rw [h2]; decide⟩

/-- C6: when the sink rejects the frame of a forwarded buffer, `on_new_sample` returns
`GST_FLOW_OK`, has called `putFrame` once only, and leaves the struct as it would be had
the sink accepted; the next buffer is then processed exactly as after an acceptance and
causes no `start` call. -/
theorem C6_rejection_not_fatal_no_retry (K : SdkConstants) (s next : GstSample) (a : Bool)
    (data : CustomData) (hf : forwarded s.buffer = true) :
    (on_new_sample K s false data).ret = GstFlowReturn.GST_FLOW_OK ∧
    (∃ f, (on_new_sample K s false data).calls.filter SinkCall.isPutFrame =
        [SinkCall.putFrame f false] ∧
      (on_new_sample K s true data).calls.filter SinkCall.isPutFrame =
        [SinkCall.putFrame f true]) ∧
    (on_new_sample K s false data).log = [LogMsg.dropped_frame] ∧
    (on_new_sample K s false data).data = (on_new_sample K s true data).data ∧
    on_new_sample K next a (on_new_sample K s false data).data =
      on_new_sample K next a (on_new_sample K s true data).data ∧
    (on_new_sample K next a (on_new_sample K s false data).data).calls.filter
      SinkCall.isStart = [] ∧
    ((deliver_all K data [Delivery.mk s false, Delivery.mk next a]).calls.filter
      SinkCall.isStart).length ≤ 1 := by
  refine ⟨?_, ⟨builtFrame K data.h264_stream_supported s.buffer, ?_, ?_⟩, ?_, ?_, ?_, ?_, ?_⟩
  · rw [on_new_sample_eq]
  · rw [on_new_sample_eq]
    cases data.stream_started <;> simp [hf, SinkCall.isPutFrame, SinkCall.isStart]
  · rw [on_new_sample_eq]
    cases data.stream_started <;> simp [hf, SinkCall.isPutFrame, SinkCall.isStart]
  · rw [on_new_sample_eq]; simp [hf]
  · simp [on_new_sample_eq]
  · simp [on_new_sample_eq]
  · rw [on_new_sample_eq, on_new_sample_eq]
    cases forwarded next.buffer <;> simp [SinkCall.isStart]
  · simp only [deliver_all, on_new_sample_eq]
    cases data.stream_started <;> cases forwarded next.buffer <;>
      simp [hf, SinkCall.isStart, List.filter_cons]

/-- Witness of C6: the sink rejects the key frame, a delta frame follows. -/
theorem C6_rejection_not_fatal_no_retry_witness :
    forwarded keyFrameSample.buffer = true ∧
    (on_new_sample exampleConstants keyFrameSample false CustomData.zeroed).ret =
      GstFlowReturn.GST_FLOW_OK ∧
    (on_new_sample exampleConstants keyFrameSample false CustomData.zeroed).data =
      (on_new_sample exampleConstants keyFrameSample true CustomData.zeroed).data :=
  ⟨by decide,
   (C6_rejection_not_fatal_no_retry exampleConstants keyFrameSample deltaSample true
      CustomData.zeroed (by decide)).1,
   (C6_rejection_not_fatal_no_retry exampleConstants keyFrameSample deltaSample true
      CustomData.zeroed (by decide)).2.2.2.1⟩

theorem pairwise_le_map_filter_div (u : Nat) (g : Delivery → Nat) (p : Delivery → Bool)
    (ds : List Delivery) (h : List.Pairwise (fun x y => x ≤ y) (ds.map g)) :
    List.Pairwise (fun x y => x ≤ y) ((ds.filter p).map (fun d => g d / u)) := by
  rw [List.pairwise_map] at h ⊢
  exact (h.filter p).imp (fun hxy => Nat.div_le_div_right hxy)

/-- C7, as stated, fails in direct H.264 mode: a delta frame (PTS 1000, DTS 100) followed by
a key frame (PTS 2000, DTS 250) has strictly increasing PTS and DTS, but the forwarded
frames carry the presentation time stamps 10 and then 2. -/
theorem C7_counterexample_pts_decreases_in_h264_mode :
    List.Pairwise (fun x y => x < y)
      ([Delivery.mk deltaSample true, Delivery.mk keyFrameSample true].map
        (fun d => d.sample.buffer.pts)) ∧
    List.Pairwise (fun x y => x < y)
      ([Delivery.mk deltaSample true, Delivery.mk keyFrameSample true].map
        (fun d => d.sample.buffer.dts)) ∧
    (forwardedFrames (deliver_all exampleConstants (sessionInMode true)
      [Delivery.mk deltaSample true, Delivery.mk keyFrameSample true]).calls).map
        (fun f => f.presentationTs) = [10, 2] ∧
    ¬ List.Pairwise (fun x y => x ≤ y)
      ((forwardedFrames (deliver_all exampleConstants (sessionInMode true)
        [Delivery.mk deltaSample true, Delivery.mk keyFrameSample true]).calls).map
          (fun f => f.presentationTs)) := by
  have hcalls : (forwardedFrames (deliver_all exampleConstants (sessionInMode true)
      [Delivery.mk deltaSample true, Delivery.mk keyFrameSample true]).calls).map
        (fun f => f.presentationTs) = [10, 2] := by
    rw [deliver_all_calls, forwardedFrames_append, forwardedFrames_startCalls,
      forwardedFrames_putFrameCalls]
    decide
  refine ⟨by decide, by decide, hcalls, ?_⟩
  rw [hcalls]
  decide

/-- C7, amended: for every sequence of deliveries whose presentation and decoding time
stamps are each non-decreasing in delivery order, the forwarded frames are those of the
forwarded buffers in delivery order, and their decoding time stamps are non-decreasing
in either mode; their presentation time stamps are non-decreasing in raw-encode mode,
and in direct H.264 mode when every key-frame buffer has equal PTS and DTS. -/
theorem C7_order_and_monotone_timestamps (K : SdkConstants) (data : CustomData)
    (ds : List Delivery)
    (hp : List.Pairwise (fun x y => x ≤ y) (ds.map (fun d => d.sample.buffer.pts)))
    (hd : List.Pairwise (fun x y => x ≤ y) (ds.map (fun d => d.sample.buffer.dts))) :
    forwardedFrames (deliver_all K data ds).calls =
      (ds.filter (fun d => forwarded d.sample.buffer)).map
        (fun d => builtFrame K data.h264_stream_supported d.sample.buffer) ∧
    List.Pairwise (fun x y => x ≤ y)
      ((forwardedFrames (deliver_all K data ds).calls).map (fun f => f.decodingTs)) ∧
    (data.h264_stream_supported = false →
      List.Pairwise (fun x y => x ≤ y)
        ((forwardedFrames (deliver_all K data ds).calls).map (fun f => f.presentationTs))) ∧
    ((∀ d ∈ ds, d.sample.buffer.GST_BUFFER_FLAG_DELTA_UNIT = false →
        d.sample.buffer.pts = d.sample.buffer.dts) →
      List.Pairwise (fun x y => x ≤ y)
        ((forwardedFrames (deliver_all K data ds).calls).map (fun f => f.presentationTs))) := by
  have hframes : forwardedFrames (deliver_all K data ds).calls =
      (ds.filter (fun d => forwarded d.sample.buffer)).map
        (fun d => builtFrame K data.h264_stream_supported d.sample.buffer) := by
    rw [deliver_all_calls, forwardedFrames_append, forwardedFrames_startCalls,
      forwardedFrames_putFrameCalls, List.nil_append]
  refine ⟨hframes, ?_, ?_, ?_⟩
  · rw [hframes, List.map_map]
    exact pairwise_le_map_filter_div K.DEFAULT_TIME_UNIT_IN_NANOS
      (fun d => d.sample.buffer.dts) _ ds hd
  · intro hraw
    rw [hframes, List.map_map]
    have := pairwise_le_map_filter_div K.DEFAULT_TIME_UNIT_IN_NANOS
      (fun d => d.sample.buffer.pts) (fun d => forwarded d.sample.buffer) ds hp
    have heq : ((fun f : Frame => f.presentationTs) ∘
        fun d : Delivery => builtFrame K data.h264_stream_supported d.sample.buffer) =
        fun d => d.sample.buffer.pts / K.DEFAULT_TIME_UNIT_IN_NANOS := by
      funext d
      simp [builtFrame, safeguardedPts, hraw]
    rw [heq]
    exact this
  · intro hkey
    rw [hframes, List.map_map]
    have := pairwise_le_map_filter_div K.DEFAULT_TIME_UNIT_IN_NANOS
      (fun d => d.sample.buffer.pts) (fun d => forwarded d.sample.buffer) ds hp
    have heq : (ds.filter (fun d => forwarded d.sample.buffer)).map
        ((fun f : Frame => f.presentationTs) ∘
          fun d : Delivery => builtFrame K data.h264_stream_supported d.sample.buffer) =
        (ds.filter (fun d => forwarded d.sample.buffer)).map
          (fun d => d.sample.buffer.pts / K.DEFAULT_TIME_UNIT_IN_NANOS) := by
      apply List.map_congr_left
      intro d hdmem
      have hmem : d ∈ ds := (List.mem_filter.mp hdmem).1
      have hk := hkey d hmem
      simp only [Function.comp, builtFrame, safeguardedPts]
      cases hdl : d.sample.buffer.GST_BUFFER_FLAG_DELTA_UNIT
      · rw [hk hdl]; simp
      · simp
    rw [heq]
    exact this

/-- Witness of C7 (amended): a delta frame then a key frame, in raw-encode mode. -/
theorem C7_order_and_monotone_timestamps_witness :
    List.Pairwise (fun x y => x ≤ y)
      ([Delivery.mk deltaSample true, Delivery.mk keyFrameSample false].map
        (fun d => d.sample.buffer.pts)) ∧
    List.Pairwise (fun x y => x ≤ y)
      ([Delivery.mk deltaSample true, Delivery.mk keyFrameSample false].map
        (fun d => d.sample.buffer.dts)) ∧
    List.Pairwise (fun x y => x ≤ y)
      ((forwardedFrames (deliver_all exampleConstants (sessionInMode false)
        [Delivery.mk deltaSample true, Delivery.mk keyFrameSample false]).calls).map
          (fun f => f.presentationTs)) :=
  ⟨by decide, by decide,
   (C7_order_and_monotone_timestamps exampleConstants (sessionInMode false)
      [Delivery.mk deltaSample true, Delivery.mk keyFrameSample false]
      (by decide) (by decide)).2.2.1 rfl⟩

/-! ## Negotiation -/

theorem format_supported_by_source_eq {SrcCaps : Type} (env : GstEnv SrcCaps)
    (src_caps : SrcCaps) (h264 : Bool) (width height framerate : Int) :
    format_supported_by_source env src_caps h264 width height framerate =
      env.gst_caps_can_intersect (wantedDescriptor h264 width height framerate) src_caps := by
  cases h264 <;> rfl

/-- C8: `resolution_supported` is a function of the capability set, the resolution and the
frame rate. It returns true exactly when the wanted H.264 descriptor (H.264, that width
and height, frame rate between the requested one and one more) or the wanted raw
descriptor of the same resolution and rate intersects the capability set; the mode flag
is then set to whether the H.264 descriptor intersects (so H.264 wins when both do), and
is left alone when it returns false. An explicitly requested resolution is therefore
rejected exactly when neither descriptor intersects. -/
theorem C8_resolution_supported_prefers_h264 {SrcCaps : Type} (env : GstEnv SrcCaps)
    (src_caps : SrcCaps) (data : CustomData) (width height framerate bitrate : Int) :
    (resolution_supported env src_caps data width height framerate).1 =
      (env.gst_caps_can_intersect (wantedDescriptor true width height framerate) src_caps ||
       env.gst_caps_can_intersect (wantedDescriptor false width height framerate) src_caps) ∧
    (resolution_supported env src_caps data width height framerate).2 =
      { data with h264_stream_supported :=
          if (env.gst_caps_can_intersect (wantedDescriptor true width height framerate)
              src_caps) then true
          else if (env.gst_caps_can_intersect (wantedDescriptor false width height framerate)
              src_caps) then false
          else data.h264_stream_supported } ∧
    (∀ other : CustomData,
      (resolution_supported env src_caps other width height framerate).1 =
        (resolution_supported env src_caps data width height framerate).1) ∧
    (width ≠ 0 → height ≠ 0 →
      select_resolution env src_caps data
          { width := width, height := height, framerate := framerate,
            bitrateInKBPS := bitrate } =
        if env.gst_caps_can_intersect (wantedDescriptor true width height framerate)
              src_caps ||
           env.gst_caps_can_intersect (wantedDescriptor false width height framerate)
              src_caps then
          Step.next
            ({ data with h264_stream_supported :=
                 (env.gst_caps_can_intersect (wantedDescriptor true width height framerate)
                   src_caps) },
             { width := width, height := height, framerate := framerate,
               bitrateInKBPS := bitrate }) []
        else
          Step.exit 1 [Event.log (LogMsg.resolution_not_supported width height)]) := by
  refine ⟨?_, ?_, ?_, ?_⟩
  · simp only [resolution_supported, format_supported_by_source_eq]
    cases env.gst_caps_can_intersect (wantedDescriptor true width height framerate) src_caps <;>
      cases env.gst_caps_can_intersect (wantedDescriptor false width height framerate)
        src_caps <;> simp
  · simp only [resolution_supported, format_supported_by_source_eq]
    cases env.gst_caps_can_intersect (wantedDescriptor true width height framerate) src_caps <;>
      cases env.gst_caps_can_intersect (wantedDescriptor false width height framerate)
        src_caps <;> simp
  · intro other
    simp only [resolution_supported, format_supported_by_source_eq]
    cases env.gst_caps_can_intersect (wantedDescriptor true width height framerate) src_caps <;>
      cases env.gst_caps_can_intersect (wantedDescriptor false width height framerate)
        src_caps <;> simp
  · intro hw hh
    simp only [select_resolution, resolution_supported, format_supported_by_source_eq]
    cases env.gst_caps_can_intersect (wantedDescriptor true width height framerate) src_caps <;>
      cases env.gst_caps_can_intersect (wantedDescriptor false width height framerate)
        src_caps <;> simp [hw, hh]

theorem rawVgaOnly_h264 (w h : Int) :
    exampleEnv.gst_caps_can_intersect (wantedDescriptor true w h 30) rawVgaOnly = false := by
  simp [wantedDescriptor, exampleEnv, rawVgaOnly, simple_can_intersect]

theorem rawVgaOnly_raw (w h : Int) :
    exampleEnv.gst_caps_can_intersect (wantedDescriptor false w h 30) rawVgaOnly =
      (w == 640 && h == 480) := by
  simp [wantedDescriptor, exampleEnv, rawVgaOnly, simple_can_intersect]

/-- Witness of C8: three requests at 30 frames per second to a source that has H.264 and raw
video at 1280x720, raw video only at 640x480, and H.264 at 1920x1080 at 15 frames per
second only: 1280x720 selects H.264, 640x480 selects raw, 1920x1080 is rejected. -/
theorem C8_resolution_supported_prefers_h264_witness :
    select_resolution exampleEnv mixedCamera CustomData.zeroed
        { width := 1280, height := 720, framerate := 30, bitrateInKBPS := 512 } =
      Step.next
        ({ CustomData.zeroed with h264_stream_supported := true },
         { width := 1280, height := 720, framerate := 30, bitrateInKBPS := 512 }) [] ∧
    select_resolution exampleEnv mixedCamera CustomData.zeroed
        { width := 640, height := 480, framerate := 30, bitrateInKBPS := 512 } =
      Step.next
        ({ CustomData.zeroed with h264_stream_supported := false },
         { width := 640, height := 480, framerate := 30, bitrateInKBPS := 512 }) [] ∧
    select_resolution exampleEnv mixedCamera CustomData.zeroed
        { width := 1920, height := 1080, framerate := 30, bitrateInKBPS := 512 } =
      Step.exit 1 [Event.log (LogMsg.resolution_not_supported 1920 1080)] := by
  have h1 := (C8_resolution_supported_prefers_h264 exampleEnv mixedCamera CustomData.zeroed
    1280 720 30 512).2.2.2 (by decide) (by decide)
  have h2 := (C8_resolution_supported_prefers_h264 exampleEnv mixedCamera CustomData.zeroed
    640 480 30 512).2.2.2 (by decide) (by decide)
  have h3 := (C8_resolution_supported_prefers_h264 exampleEnv mixedCamera CustomData.zeroed
    1920 1080 30 512).2.2.2 (by decide) (by decide)
  have a1 : exampleEnv.gst_caps_can_intersect (wantedDescriptor true 1280 720 30)
      mixedCamera = true := by decide
  have a2 : exampleEnv.gst_caps_can_intersect (wantedDescriptor true 640 480 30)
      mixedCamera = false := by decide
  have a3 : exampleEnv.gst_caps_can_intersect (wantedDescriptor false 640 480 30)
      mixedCamera = true := by decide
  have a4 : exampleEnv.gst_caps_can_intersect (wantedDescriptor true 1920 1080 30)
      mixedCamera = false := by decide
  have a5 : exampleEnv.gst_caps_can_intersect (wantedDescriptor false 1920 1080 30)
      mixedCamera = false := by decide
  rw [a1] at h1
  rw [a2, a3] at h2
  rw [a4, a5] at h3
  exact ⟨h1, h2, h3⟩

/-- C9: when no resolution is requested, the negotiation yields the first pair of
(1920,1080), (1280,720), (640,480) at which the wanted H.264 descriptor or the wanted raw
descriptor (that width and height, frame rate between the requested one and one more)
intersects the capability set, with the mode found at that pair, and fails exactly when
no pair matches. For a capability set that supports only raw 640x480 at frame rate 30,
the result is raw mode, 640x480, 30 frames per second. -/
theorem C9_default_resolution_first_match {SrcCaps : Type} (env : GstEnv SrcCaps)
    (src_caps : SrcCaps) (data : CustomData) (fmt : StreamFormat)
    (hw : fmt.width = 0) (hh : fmt.height = 0) :
    select_resolution env src_caps data fmt =
      (match firstSupportedDefault env src_caps fmt.framerate with
       | some (p, h264) =>
         Step.next ({ data with h264_stream_supported := h264 },
                    { fmt with width := p.1, height := p.2 })
           [Event.log (LogMsg.found_matching_resolution p.1 p.2)]
       | none => Step.exit 1 [Event.log LogMsg.default_resolutions_not_supported]) ∧
    ((select_resolution env src_caps data fmt).status = some 1 ↔
      ∀ p ∈ [((1920 : Int), (1080 : Int)), (1280, 720), (640, 480)],
        env.gst_caps_can_intersect (wantedDescriptor true p.1 p.2 fmt.framerate) src_caps
          = false ∧
        env.gst_caps_can_intersect (wantedDescriptor false p.1 p.2 fmt.framerate) src_caps
          = false) ∧
    (fmt.framerate = 30 →
      (∀ (h264 : Bool) (w h : Int),
        env.gst_caps_can_intersect (wantedDescriptor h264 w h 30) src_caps = true ↔
          (h264 = false ∧ w = 640 ∧ h = 480)) →
      select_resolution env src_caps data fmt =
        Step.next ({ data with h264_stream_supported := false },
                   { fmt with width := 640, height := 480, framerate := 30 })
          [Event.log (LogMsg.found_matching_resolution 640 480)]) := by
  have key : select_resolution env src_caps data fmt =
      (match firstSupportedDefault env src_caps fmt.framerate with
       | some (p, h264) =>
         Step.next ({ data with h264_stream_supported := h264 },
                    { fmt with width := p.1, height := p.2 })
           [Event.log (LogMsg.found_matching_resolution p.1 p.2)]
       | none => Step.exit 1 [Event.log LogMsg.default_resolutions_not_supported]) := by
    unfold select_resolution firstSupportedDefault
    simp only [hw, hh, default_resolutions, find_resolution, resolution_supported,
      format_supported_by_source_eq]
    cases h1 : env.gst_caps_can_intersect (wantedDescriptor true 1920 1080 fmt.framerate)
        src_caps <;>
      cases h2 : env.gst_caps_can_intersect (wantedDescriptor false 1920 1080 fmt.framerate)
        src_caps <;>
      cases h3 : env.gst_caps_can_intersect (wantedDescriptor true 1280 720 fmt.framerate)
        src_caps <;>
      cases h4 : env.gst_caps_can_intersect (wantedDescriptor false 1280 720 fmt.framerate)
        src_caps <;>
      cases h5 : env.gst_caps_can_intersect (wantedDescriptor true 640 480 fmt.framerate)
        src_caps <;>
      cases h6 : env.gst_caps_can_intersect (wantedDescriptor false 640 480 fmt.framerate)
        src_caps <;>
      simp [List.find?, h1, h2, h3, h4, h5, h6]
  refine ⟨key, ?_, ?_⟩
  · rw [key]
    unfold firstSupportedDefault
    cases h1 : env.gst_caps_can_intersect (wantedDescriptor true 1920 1080 fmt.framerate)
        src_caps <;>
      cases h2 : env.gst_caps_can_intersect (wantedDescriptor false 1920 1080 fmt.framerate)
        src_caps <;>
      cases h3 : env.gst_caps_can_intersect (wantedDescriptor true 1280 720 fmt.framerate)
        src_caps <;>
      cases h4 : env.gst_caps_can_intersect (wantedDescriptor false 1280 720 fmt.framerate)
        src_caps <;>
      cases h5 : env.gst_caps_can_intersect (wantedDescriptor true 640 480 fmt.framerate)
        src_caps <;>
      cases h6 : env.gst_caps_can_intersect (wantedDescriptor false 640 480 fmt.framerate)
        src_caps <;>
      simp [List.find?, Step.status, h1, h2, h3, h4, h5, h6]
  · intro hf hcaps
    rw [key]
    unfold firstSupportedDefault
    rw [hf]
    have e1 : env.gst_caps_can_intersect (wantedDescriptor true 1920 1080 30) src_caps
        = false := by
      rw [Bool.eq_false_iff]; intro h; have := (hcaps _ _ _).mp h; simp at this
    have e2 : env.gst_caps_can_intersect (wantedDescriptor false 1920 1080 30) src_caps
        = false := by
      rw [Bool.eq_false_iff]; intro h; have := (hcaps _ _ _).mp h; simp at this
    have e3 : env.gst_caps_can_intersect (wantedDescriptor true 1280 720 30) src_caps
        = false := by
      rw [Bool.eq_false_iff]; intro h; have := (hcaps _ _ _).mp h; simp at this
    have e4 : env.gst_caps_can_intersect (wantedDescriptor false 1280 720 30) src_caps
        = false := by
      rw [Bool.eq_false_iff]; intro h; have := (hcaps _ _ _).mp h; simp at this
    have e5 : env.gst_caps_can_intersect (wantedDescriptor true 640 480 30) src_caps
        = false := by
      rw [Bool.eq_false_iff]; intro h; have := (hcaps _ _ _).mp h; simp at this
    have e6 : env.gst_caps_can_intersect (wantedDescriptor false 640 480 30) src_caps
        = true :=
      (hcaps _ _ _).mpr ⟨rfl, rfl, rfl⟩
    simp [List.find?, e1, e2, e3, e4, e5, e6, hf]

/-- Witness of C9: no resolution requested, frame rate 30. On a source that has only raw
640x480 video at 30 frames per second the result is raw mode at 640x480. On a source that
has H.264 at 1920x1080 at 15 frames per second only, H.264 and raw video at 1280x720 and
raw video at 640x480, the result is direct H.264 at 1280x720. -/
theorem C9_default_resolution_first_match_witness :
    select_resolution exampleEnv rawVgaOnly CustomData.zeroed StreamFormat.initial =
      Step.next ({ CustomData.zeroed with h264_stream_supported := false },
                 { width := 640, height := 480, framerate := 30, bitrateInKBPS := 512 })
        [Event.log (LogMsg.found_matching_resolution 640 480)] ∧
    select_resolution exampleEnv mixedCamera CustomData.zeroed StreamFormat.initial =
      Step.next ({ CustomData.zeroed with h264_stream_supported := true },
                 { width := 1280, height := 720, framerate := 30, bitrateInKBPS := 512 })
        [Event.log (LogMsg.found_matching_resolution 1280 720)] := by
  refine ⟨(C9_default_resolution_first_match exampleEnv rawVgaOnly CustomData.zeroed
    StreamFormat.initial rfl rfl).2.2 rfl (by
      intro h264 w h
      cases h264
      · rw [rawVgaOnly_raw]; simp
      · rw [rawVgaOnly_h264]; simp), ?_⟩
  have h := (C9_default_resolution_first_match exampleEnv mixedCamera CustomData.zeroed
    StreamFormat.initial rfl rfl).1
  have hfirst : firstSupportedDefault exampleEnv mixedCamera StreamFormat.initial.framerate =
      some ((1280, 720), true) := by decide
  rw [hfirst] at h
  exact h

/-! ## Set-up -/

theorem parse_options_events (fmt0 fmt : StreamFormat) (options : List CliOption)
    (events : List Event) (h : parse_options fmt0 options = Step.next fmt events) :
    events = [] := by
  induction options generalizing fmt0 with
  | nil =>
    simp only [parse_options, Step.next.injEq] at h
    exact h.2.symm
  | cons o os ih =>
    unfold parse_options at h
    cases hl : o.letter <;> cases he : o.endptr_at_end <;> simp [hl, he] at h <;>
      exact ih _ h

/-- C10: for every request whose options parse to a width and a height of which exactly
one is zero, `gstreamer_init` returns 1 after `kinesis_video_init` and before any element
is created, the source is probed or a resolution is negotiated, whatever the environment
and its capability set. -/
theorem C10_half_specified_resolution_rejected {SrcCaps : Type} (env : GstEnv SrcCaps)
    (argc : Nat) (options : List CliOption) (stream_name : String) (fmt : StreamFormat)
    (events : List Event)
    (hparse : parse_options StreamFormat.initial options = Step.next fmt events)
    (hone : (fmt.width = 0 ∧ fmt.height ≠ 0) ∨ (fmt.width ≠ 0 ∧ fmt.height = 0)) :
    (gstreamer_init env argc options stream_name).status = some 1 ∧
    (∀ e ∈ (gstreamer_init env argc options stream_name).events, e.isProbe = false) ∧
    gstreamer_init env argc options stream_name =
      (if argc < 2 then Step.exit 1 [Event.log LogMsg.usage]
       else Step.exit 1 [Event.gst_init, Event.kinesis_video_init stream_name,
                         Event.log LogMsg.invalid_resolution]) := by
  have hev := parse_options_events _ _ _ _ hparse
  subst hev
  have key : gstreamer_init env argc options stream_name =
      (if argc < 2 then Step.exit 1 [Event.log LogMsg.usage]
       else Step.exit 1 [Event.gst_init, Event.kinesis_video_init stream_name,
                         Event.log LogMsg.invalid_resolution]) := by
    unfold gstreamer_init
    by_cases hargc : argc < 2
    · simp [hargc]
    · simp [hargc, Step.andThen, hparse, check_resolution_request, hone]
  refine ⟨?_, ?_, key⟩
  · rw [key]; split <;> rfl
  · rw [key]
    split <;> simp [Step.events, Event.isProbe]

/-- Witness of C10: `-w 640` alone, with a stream name. -/
theorem C10_half_specified_resolution_rejected_witness :
    gstreamer_init exampleEnv 4
        [{ letter := OptionLetter.w, value := 640, endptr_at_end := true }] "my-stream" =
      Step.exit 1 [Event.gst_init, Event.kinesis_video_init "my-stream",
                   Event.log LogMsg.invalid_resolution] :=
  (C10_half_specified_resolution_rejected exampleEnv 4
    [{ letter := OptionLetter.w, value := 640, endptr_at_end := true }] "my-stream"
    { StreamFormat.initial with width := 640 } [] rfl (Or.inr ⟨by decide, rfl⟩)).2.2

/-! ## Assembly -/

/-- C11: whenever at least one of the three encoder kinds can be instantiated, the encoder
that `gstreamer_init` keeps is of the first available kind in the order `vtenc_h264_hw`,
`omxh264enc`, `x264enc`, and the capture source it asks for is `autovideosrc` if and only
if the hardware vendor encoder is available, `v4l2src` otherwise. -/
theorem C11_encoder_priority_and_source {SrcCaps : Type} (env : GstEnv SrcCaps)
    (data : CustomData) (h : ∃ k : EncoderKind, k.available env = true) :
    ∃ (created : CreatedElements) (events : List Event) (k : EncoderKind),
      create_elements env data = Step.next created events ∧
      firstAvailableEncoder env = some k ∧
      k.available env = true ∧
      (∀ j : EncoderKind, j.priority < k.priority → j.available env = false) ∧
      created.data.encoder = some { factory := k.factory, name := ElementName.encoder } ∧
      created.data.source = factory_make env (coupledSource env) ElementName.source ∧
      (coupledSource env = ElementFactory.autovideosrc ↔
        EncoderKind.HardwareVendorEncoder.available env = true) ∧
      (coupledSource env = ElementFactory.v4l2src ↔
        EncoderKind.HardwareVendorEncoder.available env = false) ∧
      (Event.gst_element_factory_make ElementFactory.autovideosrc ElementName.source ∈ events ↔
        EncoderKind.HardwareVendorEncoder.available env = true) ∧
      (Event.gst_element_factory_make ElementFactory.v4l2src ElementName.source ∈ events ↔
        EncoderKind.HardwareVendorEncoder.available env = false) := by
  cases h1 : env.gst_element_factory_make ElementFactory.vtenc_h264_hw ElementName.encoder
  · cases h2 : env.gst_element_factory_make ElementFactory.omxh264enc ElementName.encoder
    · cases h3 : env.gst_element_factory_make ElementFactory.x264enc ElementName.encoder
      · obtain ⟨k, hk⟩ := h
        cases k <;> simp [EncoderKind.available, EncoderKind.factory, h1, h2, h3] at hk
      · simp only [create_elements, factory_make, h1, h2, h3, Bool.false_eq_true, if_false,
          if_true]
        refine ⟨_, _, EncoderKind.SoftwareEncoder, rfl, ?_, ?_, ?_, ?_, ?_, ?_, ?_, ?_, ?_⟩
        · simp [firstAvailableEncoder, EncoderKind.available, EncoderKind.factory, h1, h2, h3]
        · simp [EncoderKind.available, EncoderKind.factory, h3]
        · intro j hj
          cases j <;> simp [EncoderKind.priority, EncoderKind.available, EncoderKind.factory,
            h1, h2] at hj ⊢
        · simp [EncoderKind.factory]
        · simp [coupledSource, EncoderKind.available, EncoderKind.factory, h1, factory_make]
        · simp [coupledSource, EncoderKind.available, EncoderKind.factory, h1]
        · simp [coupledSource, EncoderKind.available, EncoderKind.factory, h1]
        · simp [EncoderKind.available, EncoderKind.factory, h1]
        · simp [EncoderKind.available, EncoderKind.factory, h1]
    · simp only [create_elements, factory_make, h1, h2, Bool.false_eq_true, if_false, if_true]
      refine ⟨_, _, EncoderKind.EmbeddedBoardEncoder, rfl, ?_, ?_, ?_, ?_, ?_, ?_, ?_, ?_, ?_⟩
      · simp [firstAvailableEncoder, EncoderKind.available, EncoderKind.factory, h1, h2]
      · simp [EncoderKind.available, EncoderKind.factory, h2]
      · intro j hj
        cases j <;> simp [EncoderKind.priority, EncoderKind.available, EncoderKind.factory,
          h1] at hj ⊢
      · simp [EncoderKind.factory]
      · simp [coupledSource, EncoderKind.available, EncoderKind.factory, h1, factory_make]
      · simp [coupledSource, EncoderKind.available, EncoderKind.factory, h1]
      · simp [coupledSource, EncoderKind.available, EncoderKind.factory, h1]
      · simp [EncoderKind.available, EncoderKind.factory, h1]
      · simp [EncoderKind.available, EncoderKind.factory, h1]
  · simp only [create_elements, factory_make, h1, if_true]
    refine ⟨_, _, EncoderKind.HardwareVendorEncoder, rfl, ?_, ?_, ?_, ?_, ?_, ?_, ?_, ?_, ?_⟩
    · simp [firstAvailableEncoder, EncoderKind.available, EncoderKind.factory, h1]
    · simp [EncoderKind.available, EncoderKind.factory, h1]
    · intro j hj
      cases j <;> simp [EncoderKind.priority] at hj
    · simp [EncoderKind.factory]
    · simp [coupledSource, EncoderKind.available, EncoderKind.factory, h1, factory_make]
    · simp [coupledSource, EncoderKind.available, EncoderKind.factory, h1]
    · simp [coupledSource, EncoderKind.available, EncoderKind.factory, h1]
    · simp [EncoderKind.available, EncoderKind.factory, h1]
    · simp [EncoderKind.available, EncoderKind.factory, h1]

/-- Witness of C11: without `vtenc_h264_hw` but with `omxh264enc` and `x264enc`, the encoder
is `omxh264enc` and the source `v4l2src`. -/
theorem C11_encoder_priority_and_source_witness :
    ∃ (created : CreatedElements) (events : List Event),
      create_elements embeddedBoardEnv CustomData.zeroed = Step.next created events ∧
      created.data.encoder =
        some { factory := ElementFactory.omxh264enc, name := ElementName.encoder } ∧
      created.data.source =
        some { factory := ElementFactory.v4l2src, name := ElementName.source } := by
  obtain ⟨created, events, k, hc, hk, -, -, henc, hsrc, -⟩ :=
    C11_encoder_priority_and_source embeddedBoardEnv CustomData.zeroed
      ⟨EncoderKind.EmbeddedBoardEncoder, by decide⟩
  have hfirst : firstAvailableEncoder embeddedBoardEnv =
      some EncoderKind.EmbeddedBoardEncoder := by decide
  rw [hfirst] at hk
  have hk2 : k = EncoderKind.EmbeddedBoardEncoder := (Option.some.inj hk).symm
  subst hk2
  exact ⟨created, events, hc, henc, by rw [hsrc]; decide⟩

/-- C12 does not hold of the code: in direct H.264 mode the chain that is added to the
pipeline and linked is source, `h264parse`, filter, appsink. The source filter is left
out of it, although its caps have been set to byte-stream H.264 with `au` alignment, and
although the raw chain has it between format conversion and encoder. -/
theorem C12_passthrough_chain_leaves_out_source_filter {SrcCaps : Type} (env : GstEnv SrcCaps)
    (els : Elements) (data : CustomData) (vtenc : Bool) (isOnRpi : Option Bool)
    (fmt : StreamFormat) (h : data.h264_stream_supported = true) :
    pipeline_chain els data = [els.source, els.h264parse, els.filter, els.appsink] ∧
    pipeline_chain els data ≠ passthroughChain els ∧
    (build_pipeline env els data).events.take 2 =
      [Event.gst_bin_add_many [els.source, els.h264parse, els.filter, els.appsink],
       Event.gst_element_link_many [els.source, els.h264parse, els.filter, els.appsink]] ∧
    configure_elements els data vtenc isOnRpi fmt =
      [Event.set_caps els.source_filter
         (gst_caps_new_simple MediaType.video_x_h264
           [(CapsField.stream_format, GValue.G_TYPE_STRING "byte-stream"),
            (CapsField.alignment, GValue.G_TYPE_STRING "au")]),
       Event.set_caps els.filter (encoder_filter_caps true fmt),
       Event.configure_appsink els.appsink] ∧
    (∀ video_convert : GstElement,
      pipeline_chain els
          { data with h264_stream_supported := false, video_convert := some video_convert } =
        [els.source, video_convert, els.source_filter, els.encoder, els.h264parse, els.filter,
         els.appsink]) := by
  have hchain : pipeline_chain els data =
      [els.source, els.h264parse, els.filter, els.appsink] := by
    simp [pipeline_chain, h, until_null]
  refine ⟨hchain, ?_, ?_, ?_, ?_⟩
  · rw [hchain]
    intro hEq
    have hlen := congrArg List.length hEq
    simp [passthroughChain] at hlen
  · unfold build_pipeline
    rw [hchain]
    cases env.gst_element_link_many [els.source, els.h264parse, els.filter, els.appsink] <;>
      simp [Step.events]
  · simp [configure_elements, source_filter_caps, encoder_properties, h]
  · intro video_convert
    simp [pipeline_chain, until_null]

/-- C13, as stated, fails: in direct H.264 mode the caps set on the output filter carry the
width, the height and the frame-rate range next to the packaging fields. -/
theorem C13_counterexample_passthrough_filter_pins_resolution :
    (encoder_filter_caps true
      { width := 1280, height := 720, framerate := 30, bitrateInKBPS := 512 }).fields =
      [(CapsField.stream_format, GValue.G_TYPE_STRING "avc"),
       (CapsField.alignment, GValue.G_TYPE_STRING "au"),
       (CapsField.width, GValue.G_TYPE_INT 1280),
       (CapsField.height, GValue.G_TYPE_INT 720),
       (CapsField.framerate, GValue.GST_TYPE_FRACTION_RANGE 30 1 31 1)] ∧
    CapsField.width ∈ (encoder_filter_caps true
      { width := 1280, height := 720, framerate := 30, bitrateInKBPS := 512 }).fieldNames ∧
    CapsField.height ∈ (encoder_filter_caps true
      { width := 1280, height := 720, framerate := 30, bitrateInKBPS := 512 }).fieldNames ∧
    CapsField.framerate ∈ (encoder_filter_caps true
      { width := 1280, height := 720, framerate := 30, bitrateInKBPS := 512 }).fieldNames := by
  refine ⟨rfl, ?_, ?_, ?_⟩ <;> decide

/-- C13, amended: in both modes the caps set on the output filter are H.264 caps that pin
the packaging (stream-format `avc`, alignment `au`), the width, the height and the
frame-rate range; in direct H.264 mode they carry no profile, in raw mode they carry the
profile `baseline` in addition. These are the caps that the set-up sets on the filter. -/
theorem C13_output_filter_caps (fmt : StreamFormat) :
    encoder_filter_caps true fmt =
      gst_caps_new_simple MediaType.video_x_h264
        [(CapsField.stream_format, GValue.G_TYPE_STRING "avc"),
         (CapsField.alignment, GValue.G_TYPE_STRING "au"),
         (CapsField.width, GValue.G_TYPE_INT fmt.width),
         (CapsField.height, GValue.G_TYPE_INT fmt.height),
         (CapsField.framerate,
           GValue.GST_TYPE_FRACTION_RANGE fmt.framerate 1 (fmt.framerate + 1) 1)] ∧
    CapsField.profile ∉ (encoder_filter_caps true fmt).fieldNames ∧
    encoder_filter_caps false fmt =
      gst_caps_new_simple MediaType.video_x_h264
        [(CapsField.stream_format, GValue.G_TYPE_STRING "avc"),
         (CapsField.alignment, GValue.G_TYPE_STRING "au"),
         (CapsField.width, GValue.G_TYPE_INT fmt.width),
         (CapsField.height, GValue.G_TYPE_INT fmt.height),
         (CapsField.framerate,
           GValue.GST_TYPE_FRACTION_RANGE fmt.framerate 1 (fmt.framerate + 1) 1),
         (CapsField.profile, GValue.G_TYPE_STRING "baseline")] ∧
    (∀ (els : Elements) (data : CustomData) (vtenc : Bool) (isOnRpi : Option Bool),
      Event.set_caps els.filter (encoder_filter_caps data.h264_stream_supported fmt) ∈
        configure_elements els data vtenc isOnRpi fmt) := by
  refine ⟨?_, ?_, ?_, ?_⟩
  · simp [encoder_filter_caps]
  · simp [encoder_filter_caps, GstCaps.fieldNames, gst_caps_new_simple]
  · simp [encoder_filter_caps, gst_caps_set_simple, gst_caps_new_simple]
  · intro els data vtenc isOnRpi
    simp [configure_elements]

/-- Witness of C12: the chain for the example elements in direct H.264 mode, and the run of
`gstreamer_init` with no options on a platform where every element can be created and
the source advertises only H.264 at 1280x720: it sets the caps of the source filter, links
source, `h264parse`, filter and appsink, and returns 0. -/
theorem C12_passthrough_chain_leaves_out_source_filter_witness :
    pipeline_chain exampleElements (sessionInMode true) =
      [exampleElements.source, exampleElements.h264parse, exampleElements.filter,
       exampleElements.appsink] ∧
    Event.set_caps { factory := ElementFactory.capsfilter, name := ElementName.source_filter }
        (gst_caps_new_simple MediaType.video_x_h264
          [(CapsField.stream_format, GValue.G_TYPE_STRING "byte-stream"),
           (CapsField.alignment, GValue.G_TYPE_STRING "au")]) ∈
      (gstreamer_init h264CameraEnv 2 [] "my-stream").events ∧
    Event.gst_element_link_many
        [{ factory := ElementFactory.autovideosrc, name := ElementName.source },
         { factory := ElementFactory.h264parse, name := ElementName.h264parse },
         { factory := ElementFactory.capsfilter, name := ElementName.encoder_filter },
         { factory := ElementFactory.appsink, name := ElementName.appsink }] ∈
      (gstreamer_init h264CameraEnv 2 [] "my-stream").events ∧
    (gstreamer_init h264CameraEnv 2 [] "my-stream").status = some 0 :=
  ⟨(C12_passthrough_chain_leaves_out_source_filter exampleEnv exampleElements
      (sessionInMode true) false none StreamFormat.initial rfl).1,
   by decide, by decide, by decide⟩

theorem parse_options_cases (fmt0 : StreamFormat) (options : List CliOption) :
    (∃ m, parse_options fmt0 options = Step.exit 1 [Event.log m]) ∨
    (∃ fmt, parse_options fmt0 options = Step.next fmt []) := by
  induction options generalizing fmt0 with
  | nil => exact Or.inr ⟨fmt0, rfl⟩
  | cons o os ih =>
    unfold parse_options
    cases hl : o.letter <;> cases he : o.endptr_at_end <;> simp <;> exact ih _

theorem check_elements_no_encoder (data : CustomData) (h : data.encoder = none) :
    check_elements data = Step.exit 1 (not_created_messages data) := by
  unfold check_elements
  cases data.pipeline <;> cases data.source <;> cases data.source_filter <;> simp [h]

theorem not_created_messages_no_encoder (data : CustomData) (h : data.encoder = none) :
    (∀ e ∈ not_created_messages data, e.isProbe = false) ∧
    Event.log LogMsg.encoder_not_created ∈ not_created_messages data := by
  constructor
  · intro e he
    simp only [not_created_messages, List.mem_append, List.mem_singleton] at he
    rcases he with ((((((he | he) | he) | he) | he) | he) | he) | he
    · rw [he]; rfl
    all_goals
      split at he
      · rw [List.mem_singleton.mp he]; rfl
      · exact absurd he (List.not_mem_nil _)
  · simp [not_created_messages, h]

theorem create_elements_no_encoder {SrcCaps : Type} (env : GstEnv SrcCaps) (data : CustomData)
    (h : ∀ k : EncoderKind, k.available env = false) :
    ∃ (created : CreatedElements) (events : List Event),
      create_elements env data = Step.next created events ∧
      created.data.encoder = none ∧
      ∀ e ∈ events, e.isProbe = false := by
  have h1 := h EncoderKind.HardwareVendorEncoder
  have h2 := h EncoderKind.EmbeddedBoardEncoder
  have h3 := h EncoderKind.SoftwareEncoder
  simp only [EncoderKind.available, EncoderKind.factory] at h1 h2 h3
  simp only [create_elements, factory_make, h1, h2, h3, Bool.false_eq_true, if_false]
  refine ⟨_, _, rfl, rfl, ?_⟩
  intro e he
  simp only [List.mem_append, List.mem_cons, List.mem_singleton, List.not_mem_nil,
    or_false] at he
  rcases he with (he | he | he | he | he) | (he | he | he | he | he | he) <;> rw [he] <;> rfl

/-- C14: when none of the three encoder kinds can be instantiated, `gstreamer_init` returns
1 without any state change or caps query of the source, for every environment and
capability set and for every command line; when the command line is accepted, the run
ends with the messages about elements that could not be created, the encoder among
them. -/
theorem C14_encoder_required_unconditionally {SrcCaps : Type} (env : GstEnv SrcCaps)
    (argc : Nat) (options : List CliOption) (stream_name : String)
    (h : ∀ k : EncoderKind, k.available env = false) :
    (gstreamer_init env argc options stream_name).status = some 1 ∧
    (∀ e ∈ (gstreamer_init env argc options stream_name).events, e.isProbe = false) ∧
    (∀ fmt : StreamFormat, 2 ≤ argc →
      parse_options StreamFormat.initial options = Step.next fmt [] →
      ¬ ((fmt.width = 0 ∧ fmt.height ≠ 0) ∨ (fmt.width ≠ 0 ∧ fmt.height = 0)) →
      Event.log LogMsg.encoder_not_created ∈
        (gstreamer_init env argc options stream_name).events) := by
  obtain ⟨created, events, hc, henc, hev⟩ := create_elements_no_encoder env CustomData.zeroed h
  have hchk := check_elements_no_encoder created.data henc
  obtain ⟨hmsg, hmem⟩ := not_created_messages_no_encoder created.data henc
  by_cases hargc : argc < 2
  · refine ⟨?_, ?_, ?_⟩
    · simp [gstreamer_init, hargc, Step.status]
    · simp [gstreamer_init, hargc, Step.events, Event.isProbe]
    · intro fmt h2; omega
  · rcases parse_options_cases StreamFormat.initial options with ⟨m, hp⟩ | ⟨fmt, hp⟩
    · refine ⟨?_, ?_, ?_⟩
      · simp [gstreamer_init, hargc, Step.andThen, hp, Step.status]
      · simp [gstreamer_init, hargc, Step.andThen, hp, Step.events, Event.isProbe]
      · intro fmt _ hp2; rw [hp] at hp2; cases hp2
    · by_cases hres : (fmt.width = 0 ∧ fmt.height ≠ 0) ∨ (fmt.width ≠ 0 ∧ fmt.height = 0)
      · refine ⟨?_, ?_, ?_⟩
        · simp [gstreamer_init, hargc, Step.andThen, hp, check_resolution_request, hres,
            Step.status]
        · simp [gstreamer_init, hargc, Step.andThen, hp, check_resolution_request, hres,
            Step.events, Event.isProbe]
        · intro fmt2 _ hp2 hres2
          rw [hp] at hp2
          cases hp2
          exact absurd hres hres2
      · have key : gstreamer_init env argc options stream_name =
            Step.exit 1 ([Event.gst_init] ++ ([Event.kinesis_video_init stream_name] ++
              (events ++ not_created_messages created.data))) := by
          simp [gstreamer_init, hargc, Step.andThen, hp, check_resolution_request, hres, hc,
            hchk]
        rw [key]
        refine ⟨rfl, ?_, ?_⟩
        · intro e he
          simp only [Step.events, List.mem_append, List.mem_singleton] at he
          rcases he with he | he | he | he
          · rw [he]; rfl
          · rw [he]; rfl
          · exact hev e he
          · exact hmsg e he
        · intro _ _ _ _
          simp only [Step.events, List.mem_append]
          exact Or.inr (Or.inr (Or.inr hmem))

/-- Witness of C14: no encoder can be created, while the source advertises H.264 at
1280x720, for which the direct H.264 mode would be selected. -/
theorem C14_encoder_required_unconditionally_witness :
    (∀ k : EncoderKind, k.available noEncoderEnv = false) ∧
    format_supported_by_source noEncoderEnv h264HdOnly true 1280 720 30 = true ∧
    (gstreamer_init noEncoderEnv 2 [] "my-stream").status = some 1 ∧
    (∀ e ∈ (gstreamer_init noEncoderEnv 2 [] "my-stream").events, e.isProbe = false) ∧
    Event.log LogMsg.encoder_not_created ∈
      (gstreamer_init noEncoderEnv 2 [] "my-stream").events :=
  ⟨by intro k; cases k <;> decide,
   by decide,
   (C14_encoder_required_unconditionally noEncoderEnv 2 [] "my-stream"
      (by intro k; cases k <;> decide)).1,
   (C14_encoder_required_unconditionally noEncoderEnv 2 [] "my-stream"
      (by intro k; cases k <;> decide)).2.1,
   (C14_encoder_required_unconditionally noEncoderEnv 2 [] "my-stream"
      (by intro k; cases k <;> decide)).2.2 StreamFormat.initial (by decide) rfl (by decide)⟩

end KvsGstDemo
